import Mathlib

/-!
Formal model of the credential-stuffing detection engine
(`app/venv1/generate_access_logs.py` and `app/dashboard.py`).

Modelling conventions:
* Python floats are modelled as rationals (`Rat`); `round(x, 2)` is modelled
  as exact decimal rounding with ties to even (`round2`), and `math.exp` is a
  parameter `pexp : Rat → Rat` of every definition that uses it (the one
  transcendental primitive of the program).
* Python dicts keyed by strings are association lists (`List (String × α)`)
  with `dictGet`/`dictSet`; Python sets of strings are insertion-ordered
  duplicate-free lists built with `setInsert` (every use of a set in the
  program is order-independent in value).
* A missing dict key read through `.get(...)` with a falsy default is
  modelled by the empty string `""` (both `None` and `""` are falsy at every
  use site of the program).
* Timestamps are rationals counting seconds (with fractional part) from the
  civil epoch 1970-01-01, via the standard days-from-civil-date algorithm.
* `datetime.now()` is a parameter `now : Rat` threaded through the
  definitions that read the clock.
-/

set_option maxRecDepth 20000

/-! ### Association lists standing for Python dicts -/

def dictGet {α : Type} (m : List (String × α)) (k : String) : Option α :=
  (m.find? (fun p => p.1 == k)).map (fun p => p.2)

def dictSet {α : Type} : List (String × α) → String → α → List (String × α)
  | [], k, v => [(k, v)]
  | p :: rest, k, v => if p.1 = k then (k, v) :: rest else p :: dictSet rest k v

def dictKeys {α : Type} (m : List (String × α)) : List String :=
  m.map Prod.fst

/-- Python's `lst[-n:]`. -/
def takeLast {α : Type} (n : Nat) (l : List α) : List α :=
  l.drop (l.length - n)

/-- `set.add` for a set modelled as an insertion-ordered duplicate-free list. -/
def setInsert (s : List String) (x : String) : List String :=
  if x ∈ s then s else s ++ [x]

/-! ### Substring containment (Python's `needle in haystack`) -/

def listPrefixEq : List Char → List Char → Bool
  | [], _ => true
  | _ :: _, [] => false
  | a :: as, b :: bs => a == b && listPrefixEq as bs

def listContainsSub (n : List Char) : List Char → Bool
  | [] => listPrefixEq n []
  | c :: t => listPrefixEq n (c :: t) || listContainsSub n (c :: t).tail

/-- `needle in hay` for Python strings. -/
def substrIn (needle hay : String) : Bool :=
  listContainsSub needle.data hay.data

/-! ### Rounding: Python's `round(x, 2)` (ties to even), and `sorted` -/

def roundHE (q : Rat) : Int :=
  let f : Int := q.floor
  let r : Rat := q - (f : Rat)
  if r < 1/2 then f
  else if 1/2 < r then f + 1
  else if f % 2 = 0 then f else f + 1

def round2 (q : Rat) : Rat :=
  ((roundHE (q * 100) : Int) : Rat) / 100

def insort (x : Rat) : List Rat → List Rat
  | [] => [x]
  | y :: ys => if x ≤ y then x :: y :: ys else y :: insort x ys

/-- Python's `sorted` on a list of numbers (ascending). -/
def sortRat : List Rat → List Rat
  | [] => []
  | x :: xs => insort x (sortRat xs)

/-- Consecutive differences `[xs[i] - xs[i-1] for i in range(1, len(xs))]`. -/
def gaps : List Rat → List Rat
  | a :: b :: rest => (b - a) :: gaps (b :: rest)
  | _ => []

/-! ### Civil calendar arithmetic (days-from-civil and its inverse) -/

def isLeap (y : Nat) : Bool :=
  (y % 4 == 0 && y % 100 != 0) || y % 400 == 0

def daysInMonth (y m : Nat) : Nat :=
  if m = 2 then (if isLeap y then 29 else 28)
  else if m = 4 ∨ m = 6 ∨ m = 9 ∨ m = 11 then 30
  else 31

/-- Days from 1970-01-01 to the civil date `y-m-d` (Hinnant's algorithm). -/
def daysFromCivil (y m d : Int) : Int :=
  let y' := if m ≤ 2 then y - 1 else y
  let era := (if 0 ≤ y' then y' else y' - 399) / 400
  let yoe := y' - era * 400
  let mp := (m + 9) % 12
  let doy := (153 * mp + 2) / 5 + d - 1
  let doe := yoe * 365 + yoe / 4 - yoe / 100 + doy
  era * 146097 + doe - 719468

/-- Inverse of `daysFromCivil`. -/
def civilFromDays (z0 : Int) : Int × Int × Int :=
  let z := z0 + 719468
  let era := (if 0 ≤ z then z else z - 146096) / 146097
  let doe := z - era * 146097
  let yoe := (doe - doe / 1460 + doe / 36524 - doe / 146096) / 365
  let y := yoe + era * 400
  let doy := doe - (365 * yoe + yoe / 4 - yoe / 100)
  let mp := (5 * doy + 2) / 153
  let d := doy - (153 * mp + 2) / 5 + 1
  let m := mp + (if mp < 10 then 3 else (-9 : Int))
  (y + (if m ≤ 2 then 1 else 0), m, d)

/-! ### Parsing: `datetime.strptime` for the two formats the program uses -/

def digit? (c : Char) : Option Nat :=
  if c.isDigit then some (c.toNat - 48) else none

def grab1 : List Char → Option (Nat × List Char)
  | a :: rest =>
    match digit? a with
    | some x => some (x, rest)
    | none => none
  | [] => none

def grab2 : List Char → Option (Nat × List Char)
  | a :: b :: rest =>
    match digit? a, digit? b with
    | some x, some y => some (10 * x + y, rest)
    | _, _ => none
  | _ => none

def grab4 : List Char → Option (Nat × List Char)
  | a :: b :: c :: d :: rest =>
    match digit? a, digit? b, digit? c, digit? d with
    | some x, some y, some z, some w => some (1000 * x + 100 * y + 10 * z + w, rest)
    | _, _, _, _ => none
  | _ => none

def lit (c : Char) : List Char → Option (List Char)
  | x :: rest => if x = c then some rest else none
  | [] => none

/-- A 1-or-2 digit `strptime` field: a two-digit match with value in
`[lo2, hi2]` is committed to, otherwise a one-digit match with value in
`[lo1, hi1]` is tried (exactly CPython's generated regex alternation; a
committed two-digit match is never undone because every following literal
in these formats is a non-digit, so regex backtracking cannot help). -/
def fld (lo2 hi2 lo1 hi1 : Nat) (cs : List Char) : Option (Nat × List Char) :=
  match grab2 cs with
  | some (v, rest) =>
    if lo2 ≤ v ∧ v ≤ hi2 then some (v, rest)
    else
      match grab1 cs with
      | some (w, rest1) => if lo1 ≤ w ∧ w ≤ hi1 then some (w, rest1) else none
      | none => none
  | none =>
    match grab1 cs with
    | some (w, rest1) => if lo1 ≤ w ∧ w ≤ hi1 then some (w, rest1) else none
    | none => none

def digitsVal (ds : List Char) : Nat :=
  ds.foldl (fun a c => 10 * a + (c.toNat - 48)) 0

/-- `%f`: one to six digits, scaled to microseconds; must exhaust the input
(trailing characters after the fraction make the whole parse fail). -/
def strpF (ds : List Char) : Option Nat :=
  if ds ≠ [] ∧ ds.length ≤ 6 ∧ ds.all Char.isDigit then
    some (digitsVal ds * 10 ^ (6 - ds.length))
  else none

/-- Validation done by the `datetime` constructor, then conversion to
seconds since 1970-01-01 as an exact rational. -/
def mkDT (y m d h mi s us : Nat) : Option Rat :=
  if 1 ≤ y ∧ d ≤ daysInMonth y m then
    some ((daysFromCivil (y : Int) (m : Int) (d : Int) : Rat) * 86400
      + (h : Rat) * 3600 + (mi : Rat) * 60 + (s : Rat) + (us : Rat) / 1000000)
  else none

/-- The shared `"%Y-%m-%d %H:%M:%S"` spine of both formats; returns the
fields and the unconsumed remainder. -/
def strpCore (cs : List Char) : Option (Nat × Nat × Nat × Nat × Nat × Nat × List Char) := do
  let (y, r1) ← grab4 cs
  let r2 ← lit '-' r1
  let (mo, r3) ← fld 1 12 1 9 r2
  let r4 ← lit '-' r3
  let (d, r5) ← fld 1 31 1 9 r4
  let r6 ← lit ' ' r5
  let (h, r7) ← fld 0 23 0 9 r6
  let r8 ← lit ':' r7
  let (mi, r9) ← fld 0 59 0 9 r8
  let r10 ← lit ':' r9
  let (s, r11) ← fld 0 59 0 9 r10
  pure (y, mo, d, h, mi, s, r11)

/-- `datetime.strptime(str, "%Y-%m-%d %H:%M:%S.%f")` then, on failure,
`datetime.strptime(str, "%Y-%m-%d %H:%M:%S")`: no string matches both
formats (one demands a `'.'` where the other demands the end), so the two
attempts combine into a single parser on the remainder. -/
def strptime2 (str : String) : Option Rat :=
  match strpCore str.data with
  | some (y, mo, d, h, mi, s, rest) =>
    match rest with
    | [] => mkDT y mo d h mi s 0
    | '.' :: ds =>
      match strpF ds with
      | some us => mkDT y mo d h mi s us
      | none => none
    | _ => none
  | none => none

/-! ### Formatting: `isoformat`, `strftime("%Y-%m-%d %H:%M:%S")` -/

def padZ (w n : Nat) : String :=
  let s := toString n
  String.mk (List.replicate (w - s.length) '0') ++ s

/-- Shared date-time writer: `sep` between date and time, optional
microsecond fraction (emitted, as in CPython, only when non-zero). -/
def fmtDateTime (sep : String) (withUs : Bool) (t : Rat) : String :=
  let day : Int := (t / 86400).floor
  let rem : Rat := t - (day : Rat) * 86400
  let secs : Int := rem.floor
  let us : Int := ((rem - (secs : Rat)) * 1000000).floor
  let ymd := civilFromDays day
  padZ 4 ymd.1.toNat ++ "-" ++ padZ 2 ymd.2.1.toNat ++ "-" ++ padZ 2 ymd.2.2.toNat
    ++ sep ++ padZ 2 (secs / 3600).toNat ++ ":" ++ padZ 2 ((secs % 3600) / 60).toNat
    ++ ":" ++ padZ 2 (secs % 60).toNat
    ++ (if withUs ∧ us ≠ 0 then "." ++ padZ 6 us.toNat else "")

/-- `datetime.isoformat()`. -/
def isoformat (t : Rat) : String := fmtDateTime "T" true t

/-- `datetime.strftime("%Y-%m-%d %H:%M:%S")`. -/
def strftimeYMDHMS (t : Rat) : String := fmtDateTime " " false t

/-! ### Parsing: `datetime.fromisoformat` (for the strings the program
writes with `isoformat()`: `YYYY-MM-DD[<sep>HH[:MM[:SS[.fff[fff]]]]]`;
timezone offsets are not modelled — the program never writes one). -/

def isoTimePart (cs : List Char) : Option (Nat × Nat × Nat × Nat) :=
  match grab2 cs with
  | none => none
  | some (h, r1) =>
    if 23 < h then none
    else
      match r1 with
      | [] => some (h, 0, 0, 0)
      | ':' :: r2 =>
        match grab2 r2 with
        | none => none
        | some (mi, r3) =>
          if 59 < mi then none
          else
            match r3 with
            | [] => some (h, mi, 0, 0)
            | ':' :: r4 =>
              match grab2 r4 with
              | none => none
              | some (s, r5) =>
                if 59 < s then none
                else
                  match r5 with
                  | [] => some (h, mi, s, 0)
                  | '.' :: ds =>
                    if (ds.length = 3 ∨ ds.length = 6) ∧ ds.all Char.isDigit then
                      some (h, mi, s, digitsVal ds * 10 ^ (6 - ds.length))
                    else none
                  | _ => none
            | _ => none
      | _ => none

def fromisoformat (str : String) : Option Rat :=
  match grab4 str.data with
  | none => none
  | some (y, r1) =>
    match lit '-' r1 with
    | none => none
    | some r2 =>
      match grab2 r2 with
      | none => none
      | some (mo, r3) =>
        if mo < 1 ∨ 12 < mo then none
        else
          match lit '-' r3 with
          | none => none
          | some r4 =>
            match grab2 r4 with
            | none => none
            | some (d, r5) =>
              if d < 1 then none
              else
                match r5 with
                | [] => mkDT y mo d 0 0 0 0
                | _ :: timecs =>
                  match isoTimePart timecs with
                  | none => none
                  | some (h, mi, s, us) => mkDT y mo d h mi s us

/-! ## The scoring / detection engine (`generate_access_logs.py`) -/

namespace GenLogs

/-! ### Configuration (`SCORING_WEIGHTS`, `DETECTION_CFG`, lists) -/

def SCORING_WEIGHTS_failed_attempts : Rat := 25
def SCORING_WEIGHTS_attack_speed : Rat := 20
def SCORING_WEIGHTS_tool_detection : Rat := 15
def SCORING_WEIGHTS_geographic_risk : Rat := 10
def SCORING_WEIGHTS_user_spread : Rat := 15
def SCORING_WEIGHTS_persistence : Rat := 15

def BRUTE_FORCE_FAIL_THRESHOLD : Nat := 5
def USER_SPREAD_THRESHOLD : Nat := 4
def PERSISTENCE_MINUTES : Rat := 15

def HIGH_VALUE_TARGETS : List String :=
  ["admin", "root", "security", "finance", "backup", "superuser", "dbadmin"]

def SUSPICIOUS_USER_AGENTS : List String :=
  ["hydra", "sqlmap", "masscan", "nikto", "nmap",
   "burp", "metasploit", "python-requests", "curl", "wget"]

def HIGH_RISK_COUNTRIES : List String := ["RU", "CN", "KP", "BR"]
def MEDIUM_RISK_COUNTRIES : List String := ["US", "MO"]

def LOCAL_IPS : List String := ["192.168.1.10", "192.168.1.15", "192.168.1.50", "10.0.0.7"]

/-! ### Data model -/

/-- One authentication event (a JSON object in `events.json`); a missing
key read via `e.get(...)` is the empty string (see the conventions above). -/
structure Event where
  date : String
  time : String
  ip : String
  user : String
  status : String
  ua : String
  country : String
deriving DecidableEq

/-- `parse_datetime`: try the two formats, and on failure return
`datetime.now()` (the `return dt.now()` fallback at the end of the
function — note that it never raises). -/
def parse_datetime (now : Rat) (date_str time_str : String) : Rat :=
  (strptime2 (date_str ++ " " ++ time_str)).getD now

/-- `get_severity_level` (inclusive lower bounds, highest tier first). -/
def get_severity_level (score : Rat) : String :=
  if score ≥ 86 then "CRITICAL"
  else if score ≥ 61 then "HIGH"
  else if score ≥ 31 then "MEDIUM"
  else "LOW"

/-- `aggregated_stats` of `calculate_threat_score_ip` (after the
set-to-list conversions). -/
structure AggStats where
  total_attempts : Nat
  failed_attempts : Nat
  success_attempts : Nat
  unique_users : List String
  countries : List String
  user_agents : List String
  targeted_hvt : List String
  first_seen : Option String
  last_seen : Option String
deriving DecidableEq

def initStats (n : Nat) : AggStats :=
  ⟨n, 0, 0, [], [], [], [], none, none⟩

/-- One iteration of the aggregation loop body (the `status`/`user`/
`country`/`ua` updates; the `elif` on status cannot fire twice, so the two
counters are written as independent conditional increments). -/
def agg_step (st : AggStats) (e : Event) : AggStats :=
  { st with
    failed_attempts := st.failed_attempts + (if e.status = "FAIL" then 1 else 0)
    success_attempts := st.success_attempts + (if e.status = "SUCCESS" then 1 else 0)
    unique_users := if e.user ≠ "" then setInsert st.unique_users e.user else st.unique_users
    targeted_hvt :=
      if e.user ≠ "" ∧ e.user ∈ HIGH_VALUE_TARGETS then setInsert st.targeted_hvt e.user
      else st.targeted_hvt
    countries := if e.country ≠ "" then setInsert st.countries e.country else st.countries
    user_agents := if e.ua ≠ "" then setInsert st.user_agents e.ua else st.user_agents }

def stats_of (recent : List Event) : AggStats :=
  recent.foldl agg_step (initStats recent.length)

/-- The `times` list of the aggregation loop, already sorted: the loop
appends `parse_datetime(...)` for every event of `recent` (the `try` around
the call is dead — `parse_datetime` never raises), then `times = sorted(times)`. -/
def times_of (now : Rat) (recent : List Event) : List Rat :=
  sortRat (recent.map (fun e => parse_datetime now e.date e.time))

/-- `first_seen` / `last_seen` filled in when `times` is non-empty. -/
def stats_final (now : Rat) (recent : List Event) : AggStats :=
  let st := stats_of recent
  let times := times_of now recent
  { st with
    first_seen := times.head?.map strftimeYMDHMS
    last_seen := times.getLast?.map strftimeYMDHMS }

/-- The `score_components` dict. -/
structure ScoreComponents where
  failed_attempts : Rat
  attack_speed : Rat
  tool_detection : Rat
  geographic_risk : Rat
  user_spread : Rat
  persistence : Rat
deriving DecidableEq

def zeroComponents : ScoreComponents := ⟨0, 0, 0, 0, 0, 0⟩

/-- `sum(score_components.values())`. -/
def sumComponents (c : ScoreComponents) : Rat :=
  c.failed_attempts + c.attack_speed + c.tool_detection
    + c.geographic_risk + c.user_spread + c.persistence

/-! ### The six component blocks of `calculate_threat_score_ip`
(reason strings keep the fixed text of the source; the numeric
`f"..."`-interpolations are rendered with `toString`, the `:.1f`/`:.2f`
float paddings being outside the model). -/

/-- Failed-attempts block: saturation curve over the brute-force
threshold, capped at the weight. -/
def failed_attempts_block (pexp : Rat → Rat) (num_fails recent_len : Nat) :
    Rat × List String :=
  if num_fails ≥ BRUTE_FORCE_FAIL_THRESHOLD then
    let over : Nat := num_fails - (BRUTE_FORCE_FAIL_THRESHOLD - 1)
    let sc := min SCORING_WEIGHTS_failed_attempts
      (round2 (SCORING_WEIGHTS_failed_attempts * (1 - pexp (-((over : Rat) / 3)))))
    (sc, [toString num_fails ++ " tentatives echouees (" ++ toString recent_len ++ ")"])
  else (0, [])

/-- Attack-speed block: inter-event gaps of the sorted `times`, sorted,
trimmed by `cut = max(1, int(len*0.1))` per side only when
`len > 2*cut` (for `n ≤ 199`, `int(n*0.1) = n / 10` exactly), averaged,
then tiered. -/
def attack_speed_block (times : List Rat) : Rat × List String :=
  if 3 ≤ times.length then
    let diffs_sorted := sortRat (gaps times)
    let cut := max 1 (diffs_sorted.length / 10)
    let trimmed :=
      if 2 * cut < diffs_sorted.length then
        (diffs_sorted.drop cut).take (diffs_sorted.length - 2 * cut)
      else diffs_sorted
    if trimmed ≠ [] then
      let avg := trimmed.sum / (trimmed.length : Rat)
      if avg < 0.25 then (SCORING_WEIGHTS_attack_speed, ["Attaque tres rapide"])
      else if avg < 0.6 then (round2 (SCORING_WEIGHTS_attack_speed * 0.8), ["Attaque rapide"])
      else if avg < 1.5 then (round2 (SCORING_WEIGHTS_attack_speed * 0.5), ["Attaque moderee"])
      else (0, [])
    else (0, [])
  else (0, [])

/-- Tool-detection loop: first user-agent whose lowercase form contains a
suspicious substring wins (the `break`). -/
def tool_loop : List String → Rat × List String
  | [] => (0, [])
  | ua :: rest =>
    if SUSPICIOUS_USER_AGENTS.any (fun bot => substrIn bot ua.toLower) then
      (SCORING_WEIGHTS_tool_detection, ["Outil automatise: " ++ ua.take 40])
    else tool_loop rest

/-- Geographic-risk loop: `break` on a high-risk country, `max` with half
weight (`10 // 2 = 5`) on a medium-risk one. -/
def geo_loop : List String → Rat → List String → Rat × List String
  | [], acc, rs => (acc, rs)
  | c :: rest, acc, rs =>
    if c ∈ HIGH_RISK_COUNTRIES then (max acc SCORING_WEIGHTS_geographic_risk, rs ++ ["Pays a haut risque: " ++ c])
    else if c ∈ MEDIUM_RISK_COUNTRIES then geo_loop rest (max acc 5) (rs ++ ["Pays risque moyen: " ++ c])
    else geo_loop rest acc rs

/-- User-spread block (before the high-value-target bonus). -/
def user_spread_block (num_users : Nat) : Rat × List String :=
  if 15 ≤ num_users then
    (SCORING_WEIGHTS_user_spread, ["Credential stuffing: " ++ toString num_users ++ " utilisateurs cibles"])
  else if 8 ≤ num_users then
    (round2 (SCORING_WEIGHTS_user_spread * 0.8), ["Multiple utilisateurs: " ++ toString num_users])
  else if USER_SPREAD_THRESHOLD ≤ num_users then
    (round2 (SCORING_WEIGHTS_user_spread * 0.5), ["Plusieurs utilisateurs: " ++ toString num_users])
  else (0, [])

/-- Persistence block: span of the sorted `times` in minutes, tiered at the
threshold and at half of it. -/
def persistence_block (times : List Rat) : Rat × List String :=
  if 2 ≤ times.length then
    let span_minutes := (times.getLastD 0 - times.headD 0) / 60
    if span_minutes ≥ PERSISTENCE_MINUTES then
      (SCORING_WEIGHTS_persistence, ["Attaque persistante"])
    else if span_minutes ≥ PERSISTENCE_MINUTES / 2 then
      (round2 (SCORING_WEIGHTS_persistence * 0.6), ["Attaque soutenue"])
    else (0, [])
  else (0, [])

/-- The final `score_components` dict, including the high-value-target
bonus added onto `user_spread` (capped by `min(100, ...)`). -/
def components_of (pexp : Rat → Rat) (now : Rat) (recent : List Event) : ScoreComponents :=
  let st := stats_of recent
  let times := times_of now recent
  let us := (user_spread_block st.unique_users.length).1
  { failed_attempts := (failed_attempts_block pexp st.failed_attempts recent.length).1
    attack_speed := (attack_speed_block times).1
    tool_detection := (tool_loop st.user_agents).1
    geographic_risk := (geo_loop st.countries 0 []).1
    user_spread := if st.targeted_hvt ≠ [] then min 100 (us + 5) else us
    persistence := (persistence_block times).1 }

/-- The `reasons` list, in the evaluation order of the source. -/
def reasons_of (pexp : Rat → Rat) (now : Rat) (recent : List Event) : List String :=
  let st := stats_of recent
  let times := times_of now recent
  (failed_attempts_block pexp st.failed_attempts recent.length).2
    ++ (attack_speed_block times).2
    ++ (tool_loop st.user_agents).2
    ++ (geo_loop st.countries 0 []).2
    ++ (user_spread_block st.unique_users.length).2
    ++ (persistence_block times).2
    ++ (if st.targeted_hvt ≠ [] then
          ["Comptes sensibles cibles: " ++ String.intercalate ", " (st.targeted_hvt.take 3)]
        else [])

/-- `calculate_threat_score_ip(events, ip)`: filter to the IP, recency-cap
to the last 200 events of the IP, aggregate, score each component, then
`score = round(sum, 2)` and `return min(score, 100), ...`. The early
return for an IP without events yields `(0, [], zeroed components, {})`;
the empty stats dict `{}` is modelled as `initStats 0` (never read by the
callers on that path). -/
def calculate_threat_score_ip (pexp : Rat → Rat) (now : Rat)
    (events : List Event) (ip : String) :
    Rat × List String × ScoreComponents × AggStats :=
  let ip_events := events.filter (fun e => e.ip = ip)
  if ip_events = [] then (0, [], zeroComponents, initStats 0)
  else
    let recent := takeLast 200 ip_events
    let comps := components_of pexp now recent
    let score := round2 (sumComponents comps)
    (min score 100, reasons_of pexp now recent, comps, stats_final now recent)

/-! ### Sanctions (`SANCTIONS` policy table, `apply_sanction`) -/

/-- One entry of the `SANCTIONS` policy table. -/
structure SanctionCfg where
  action : String
  duration_minutes : Option Nat
  description : String
  block : Bool
  rate_limit : Option String
  requires_manual_review : Bool
deriving DecidableEq

/-- `SANCTIONS.get(severity)`: only MEDIUM/HIGH/CRITICAL have policies. -/
def sanction_config : String → Option SanctionCfg
  | "MEDIUM" => some ⟨"RATE_LIMIT", some 60, "Limitation du taux de requetes (1/5s)", false, some "1/5s", false⟩
  | "HIGH" => some ⟨"TEMPORARY_BLOCK", some 180, "Blocage temporaire (3 heures)", true, none, false⟩
  | "CRITICAL" => some ⟨"PERMANENT_BLOCK", none, "Blocage permanent - Revision manuelle requise", true, none, true⟩
  | _ => none

/-- A persisted sanction record (`sanctions.json` value); the optional
`rate_limit` key and the `requires_manual_review` flag are `Option`/`Bool`
fields (absent key = `none`/`false`). -/
structure Sanction where
  entity_type : String
  entity_value : String
  score : Rat
  severity : String
  action : String
  description : String
  blocked : Bool
  active : Bool
  created_at : String
  expires_at : Option String
  reasons : List String
  components : ScoreComponents
  rate_limit : Option String
  requires_manual_review : Bool
deriving DecidableEq

/-- `apply_sanction`: no-op when the severity has no configured policy;
otherwise overwrite the `"<type>:<value>"` key with a fresh record.
`if sanction_config["duration_minutes"]:` is Python truthiness, so a `0`
duration would behave like `None`. The load/save of `sanctions.json`
inside the function is modelled by threading the collection. -/
def apply_sanction (now : Rat) (sanctions : List (String × Sanction))
    (entity_type value : String) (score : Rat) (severity : String)
    (reasons : List String) (components : ScoreComponents) :
    List (String × Sanction) :=
  match sanction_config severity with
  | none => sanctions
  | some cfg =>
    let key := entity_type ++ ":" ++ value
    let expires_at :=
      match cfg.duration_minutes with
      | some m => if m = 0 then none else some (isoformat (now + (m : Rat) * 60))
      | none => none
    dictSet sanctions key
      { entity_type := entity_type
        entity_value := value
        score := score
        severity := severity
        action := cfg.action
        description := cfg.description
        blocked := cfg.block
        active := true
        created_at := isoformat now
        expires_at := expires_at
        reasons := reasons.take 5
        components := components
        rate_limit := cfg.rate_limit
        requires_manual_review := cfg.requires_manual_review }

/-! ### Detection cycle (`detect_threats_by_ip`) -/

/-- An alert record appended to `alerts.json` (`type_` stands for the JSON
key `"type"`). -/
structure Alert where
  type_ : String
  ip : String
  score : Rat
  severity : String
  reasons : List String
  total_attempts : Nat
  failed_attempts : Nat
  unique_users : Nat
  countries : List String
  date : String
  time : String
deriving DecidableEq

/-- A `threat_scores.json` value. -/
structure ScoreRec where
  entity_type : String
  entity_value : String
  score : Rat
  severity : String
  reasons : List String
  components : ScoreComponents
  stats : AggStats
deriving DecidableEq

def defaultEvent : Event := ⟨"", "", "", "", "", "", ""⟩

/-- `ip_groups[ip].append(e)` on a `defaultdict(list)` modelled as an
association list in first-occurrence key order. -/
def addToGroup : List (String × List Event) → String → Event → List (String × List Event)
  | [], ip, e => [(ip, [e])]
  | (k, es) :: rest, ip, e =>
    if k = ip then (k, es ++ [e]) :: rest else (k, es) :: addToGroup rest ip e

/-- One iteration of the grouping loop: skip events with a falsy IP and
local IPs. -/
def group_step (gs : List (String × List Event)) (e : Event) : List (String × List Event) :=
  if e.ip ≠ "" ∧ e.ip ∉ LOCAL_IPS then addToGroup gs e.ip e else gs

/-- `ip_groups` over the trailing window. -/
def groups_of (events : List Event) : List (String × List Event) :=
  (takeLast 1000 events).foldl group_step []

/-- The ThreatScore record stored for `ip` — note it is computed from the
full `events` argument of `detect_threats_by_ip`, not from the trailing
window. -/
def mkScoreRec (pexp : Rat → Rat) (now : Rat) (events : List Event) (ip : String) : ScoreRec :=
  let r := calculate_threat_score_ip pexp now events ip
  ⟨"IP", ip, r.1, get_severity_level r.1, r.2.1, r.2.2.1, r.2.2.2⟩

/-- The alert record appended for `ip` (reasons truncated to 3, sample
date/time from the group's last event). -/
def mkAlert (pexp : Rat → Rat) (now : Rat) (events : List Event) (ip : String)
    (ip_events : List Event) : Alert :=
  let r := calculate_threat_score_ip pexp now events ip
  let stats := r.2.2.2
  let sample := ip_events.getLastD defaultEvent
  ⟨"Threat Detection", ip, r.1, get_severity_level r.1, r.2.1.take 3,
    stats.total_attempts, stats.failed_attempts, stats.unique_users.length,
    stats.countries, sample.date, sample.time⟩

/-- The per-IP loop of `detect_threats_by_ip`, threading the alert list,
the two persisted collections and the `alerted_ips` set. -/
def detect_loop (pexp : Rat → Rat) (now : Rat) (events : List Event) :
    List (String × List Event) → List Alert → List (String × ScoreRec) →
    List (String × Sanction) → List String →
    List Alert × List (String × ScoreRec) × List (String × Sanction)
  | [], alerts, scores, sanctions, _ => (alerts, scores, sanctions)
  | (ip, ip_events) :: rest, alerts, scores, sanctions, alerted =>
    if ip_events.length < 3 then detect_loop pexp now events rest alerts scores sanctions alerted
    else
      let r := calculate_threat_score_ip pexp now events ip
      if 31 ≤ r.1 then
        let scores' := dictSet scores ("IP:" ++ ip) (mkScoreRec pexp now events ip)
        let sanctions' := apply_sanction now sanctions "IP" ip r.1 (get_severity_level r.1) r.2.1 r.2.2.1
        if ip ∈ alerted then detect_loop pexp now events rest alerts scores' sanctions' alerted
        else detect_loop pexp now events rest (alerts ++ [mkAlert pexp now events ip ip_events])
          scores' sanctions' (setInsert alerted ip)
      else detect_loop pexp now events rest alerts scores sanctions alerted

/-- `detect_threats_by_ip(events)`: the final `save_json` calls are the
returned collections. -/
def detect_threats_by_ip (pexp : Rat → Rat) (now : Rat) (events : List Event)
    (alerts0 : List Alert) (scores0 : List (String × ScoreRec))
    (sanctions0 : List (String × Sanction)) :
    List Alert × List (String × ScoreRec) × List (String × Sanction) :=
  let alerted := ((alerts0.filter (fun a => a.type_ == "Threat Detection")).map (fun a => a.ip))
  detect_loop pexp now events (groups_of events) alerts0 scores0 sanctions0 alerted

end GenLogs

/-! ## The dashboard projection layer (`dashboard.py`) -/

namespace Dashboard

open GenLogs (Sanction ScoreRec)

/-- `get_severity_level` of `dashboard.py` (identical to the generator's). -/
def get_severity_level (score : Rat) : String :=
  if score ≥ 86 then "CRITICAL"
  else if score ≥ 61 then "HIGH"
  else if score ≥ 31 then "MEDIUM"
  else "LOW"

/-- One iteration of the cleanup loop of `/api/sanctions`: returns the
surviving (possibly severity-corrected) record, or `none` when dropped,
together with this entry's contribution to the `changed` flag. The source
fixes the `severity` field *before* the expiry check, and a parse failure
of `expires_at` is swallowed (`except: pass`), keeping the record. -/
def clean_entry (now : Rat) (scores : List (String × ScoreRec))
    (entity : String) (s : Sanction) : Option Sanction × Bool :=
  match dictGet scores entity with
  | none => (none, true)
  | some r =>
    if r.score < 31 then (none, true)
    else
      let correct_severity := get_severity_level r.score
      let fixNeeded := s.severity ≠ correct_severity
      let s' := if s.severity ≠ correct_severity then { s with severity := correct_severity } else s
      match s'.expires_at with
      | some es =>
        match fromisoformat es with
        | some expires => if now > expires then (none, true) else (some s', fixNeeded)
        | none => (some s', fixNeeded)
      | none => (some s', fixNeeded)

/-- The cleanup loop of `/api/sanctions` over the stored sanctions, in
iteration order, OR-ing the per-entry `changed` contributions. -/
def clean_loop (now : Rat) (scores : List (String × ScoreRec)) :
    List (String × Sanction) → List (String × Sanction) × Bool
  | [] => ([], false)
  | (entity, s) :: rest =>
    let e := clean_entry now scores entity s
    let r := clean_loop now scores rest
    (match e.1 with
     | some s' => (entity, s') :: r.1
     | none => r.1,
     e.2 || r.2)

/-- `/api/sanctions` (`get_sanctions`): the reconciled collection and
whether `save_json` was invoked (`if changed:`). -/
def get_sanctions (now : Rat) (scores : List (String × ScoreRec))
    (sanctions : List (String × Sanction)) : List (String × Sanction) × Bool :=
  clean_loop now scores sanctions

/-- The outcome of `/api/remove-sanction` (`400`, `404`, or success). -/
inductive RemoveOutcome where
  | missing_params
  | not_found
  | lifted
deriving DecidableEq

/-- `/api/remove-sanction` (`remove_sanction`): empty/absent parameters are
falsy (`400`); an absent key is `404` with nothing mutated or persisted;
otherwise the record's `active` flag is cleared in place (the record is kept)
and the collection is persisted. Returns (outcome, collection, persisted). -/
def remove_sanction (sanctions : List (String × Sanction))
    (s_type value : String) : RemoveOutcome × List (String × Sanction) × Bool :=
  if s_type = "" ∨ value = "" then (.missing_params, sanctions, false)
  else
    let key := s_type ++ ":" ++ value
    match dictGet sanctions key with
    | none => (.not_found, sanctions, false)
    | some s => (.lifted, dictSet sanctions key { s with active := false }, true)

end Dashboard

/-! ## Definitions supporting the claims -/

/-- `recent` of `calculate_threat_score_ip`: the IP's events, capped to the
200 most recent (of the *full* argument list). -/
def GenLogs.recent_of (events : List GenLogs.Event) (ip : String) : List GenLogs.Event :=
  takeLast 200 (events.filter (fun e => e.ip = ip))

/-- A concrete stand-in for `math.exp` (the claims settled below never
depend on its values, or constrain it only through explicit hypotheses). -/
def pexp0 : Rat → Rat := fun _ => 0

/-- Event literal helper for the concrete scenarios. -/
def mkEv (d t ip u st ua c : String) : GenLogs.Event := ⟨d, t, ip, u, st, ua, c⟩

/-- The timing list exactly as claim C3 describes it: an event whose
date/time strings fail to parse contributes *no* timestamp. -/
def claimC3_times (recent : List GenLogs.Event) : List Rat :=
  sortRat (recent.filterMap (fun e => strptime2 (e.date ++ " " ++ e.time)))

/-- The attack-speed procedure exactly as claim C6 states it: sort the
gaps, *always* trim `max(1, n/10)` gaps from each end, average the
remainder (0 when nothing remains), then apply the tiers. -/
def claimC6_attack_speed (times : List Rat) : Rat :=
  let ds := sortRat (gaps times)
  let cut := max 1 (ds.length / 10)
  let trimmed := (ds.drop cut).take (ds.length - 2 * cut)
  if trimmed ≠ [] then
    let avg := trimmed.sum / (trimmed.length : Rat)
    if avg < 0.25 then 20
    else if avg < 0.6 then round2 (20 * 0.8)
    else if avg < 1.5 then round2 (20 * 0.5)
    else 0
  else 0

/-- The attack-speed procedure as amended: trimming happens only when the
gap count exceeds twice the per-side cut, otherwise all gaps are averaged
untrimmed; tiers unchanged. -/
def claimC6_amended_attack_speed (times : List Rat) : Rat :=
  let ds := sortRat (gaps times)
  let cut := max 1 (ds.length / 10)
  let trimmed :=
    if 2 * cut < ds.length then (ds.drop cut).take (ds.length - 2 * cut) else ds
  if trimmed ≠ [] then
    let avg := trimmed.sum / (trimmed.length : Rat)
    if avg < 0.25 then 20
    else if avg < 0.6 then round2 (20 * 0.8)
    else if avg < 1.5 then round2 (20 * 0.5)
    else 0
  else 0

/-- Claim C8's drop condition for a stored sanction: no backing
ThreatScore, or current score below 31, or a parseable expiry in the past. -/
def dropSpecC8 (now : Rat) (scores : List (String × GenLogs.ScoreRec))
    (entity : String) (s : GenLogs.Sanction) : Prop :=
  dictGet scores entity = none
  ∨ (∃ r, dictGet scores entity = some r ∧ r.score < 31)
  ∨ (∃ es t, s.expires_at = some es ∧ fromisoformat es = some t ∧ t < now)

/-- Claim C8's "changed" condition for a surviving sanction: its severity
field disagreed with the severity recomputed from the current score. -/
def fixSpecC8 (scores : List (String × GenLogs.ScoreRec))
    (entity : String) (s : GenLogs.Sanction) : Prop :=
  ∃ r, dictGet scores entity = some r ∧ ¬ r.score < 31
    ∧ s.severity ≠ Dashboard.get_severity_level r.score

/-- `a` is a "Threat Detection" alert for `ip`. -/
def isTD (ip : String) (a : GenLogs.Alert) : Bool :=
  a.type_ == "Threat Detection" && a.ip == ip

/-! ### Concrete inputs for the counterexamples and witnesses -/

/-- C1: fifteen distinct users from one IP, one of them the high-value
target `admin`; timestamps unparsable, all attempts successful. -/
def c1Events : List GenLogs.Event :=
  (List.range 14).map (fun i => mkEv "" "" "9.9.9.9" ("u" ++ toString i) "SUCCESS" "" "")
    ++ [mkEv "" "" "9.9.9.9" "admin" "SUCCESS" "" ""]

/-- C3: one parseable event and one whose date/time strings parse under
neither format. -/
def c3Events : List GenLogs.Event :=
  [mkEv "2025-01-01" "10:00:00" "6.6.6.6" "sara" "SUCCESS" "" "",
   mkEv "garbage" "x" "6.6.6.6" "sara" "SUCCESS" "" ""]

def nowC3 : Rat := (strptime2 "2025-01-01 10:20:00").getD 0

/-- C4: 1001 events — the oldest one (outside the trailing 1000-event
window) is the only one from a high-risk country and the only one with a
parseable timestamp; 997 filler events with a falsy IP; three recent
events from the same IP as the oldest. -/
def oldEvt : GenLogs.Event := mkEv "2025-01-01" "10:00:00" "9.9.9.9" "" "" "" "RU"

def fillEvt : GenLogs.Event := ⟨"", "", "", "", "", "", ""⟩

def aEvt : GenLogs.Event := mkEv "" "" "9.9.9.9" "" "" "" "FR"

def c4Events : List GenLogs.Event :=
  oldEvt :: (List.replicate 997 fillEvt ++ [aEvt, aEvt, aEvt])

def nowC4 : Rat := (strptime2 "2025-01-01 10:30:00").getD 0

/-- C5: the scenario of the claim — 4 events from one IP, all SUCCESS, a
single (non-high-value) user, country FR, a non-suspicious user-agent,
consecutive timestamps 3 minutes apart. -/
def c5Events : List GenLogs.Event :=
  [mkEv "2025-01-01" "10:00:00" "5.39.1.2" "sara" "SUCCESS" "Mozilla/5.0" "FR",
   mkEv "2025-01-01" "10:03:00" "5.39.1.2" "sara" "SUCCESS" "Mozilla/5.0" "FR",
   mkEv "2025-01-01" "10:06:00" "5.39.1.2" "sara" "SUCCESS" "Mozilla/5.0" "FR",
   mkEv "2025-01-01" "10:09:00" "5.39.1.2" "sara" "SUCCESS" "Mozilla/5.0" "FR"]

/-- C6: three events from one IP, 0.1 s and 0.2 s apart — exactly two
inter-event gaps, the case where the source skips trimming. -/
def c6Events : List GenLogs.Event :=
  [mkEv "2025-01-01" "10:00:00.000" "7.7.7.7" "sara" "SUCCESS" "" "",
   mkEv "2025-01-01" "10:00:00.100" "7.7.7.7" "sara" "SUCCESS" "" "",
   mkEv "2025-01-01" "10:00:00.300" "7.7.7.7" "sara" "SUCCESS" "" ""]

/-- A stored sanction with a stale severity and a well-formed expiry. -/
def sancW : GenLogs.Sanction :=
  { entity_type := "IP", entity_value := "9.9.9.9", score := 70, severity := "HIGH",
    action := "TEMPORARY_BLOCK", description := "d", blocked := true, active := true,
    created_at := "2025-01-01T10:00:00", expires_at := some "2025-01-01T13:00:00",
    reasons := [], components := GenLogs.zeroComponents, rate_limit := none,
    requires_manual_review := false }

/-- A stored sanction whose `expires_at` is not a parseable ISO timestamp. -/
def sancBadW : GenLogs.Sanction := { sancW with expires_at := some "not-a-date" }

/-- A stored ThreatScore with score 40 backing the sanctions above. -/
def recW : GenLogs.ScoreRec :=
  ⟨"IP", "9.9.9.9", 40, "MEDIUM", [], GenLogs.zeroComponents, GenLogs.initStats 0⟩

def scoresW : List (String × GenLogs.ScoreRec) := [("IP:9.9.9.9", recW)]

def sanctsW : List (String × GenLogs.Sanction) := [("IP:9.9.9.9", sancW)]

def sanctsBadW : List (String × GenLogs.Sanction) := [("IP:9.9.9.9", sancBadW)]

/-- An existing "Threat Detection" alert for C7's witness. -/
def tdAlertW : GenLogs.Alert :=
  ⟨"Threat Detection", "1.2.3.4", 50, "MEDIUM", [], 0, 0, 0, [], "", ""⟩

/-! ## Basic lemmas about the modelling helpers -/

lemma ratFloor_eq_intFloor (q : Rat) : q.floor = ⌊q⌋ := by
  rw [Rat.floor_def', Rat.floor_def]

lemma roundHE_nonneg {q : Rat} (h : 0 ≤ q) : 0 ≤ roundHE q := by
  have hf : (0 : Int) ≤ ⌊q⌋ := Int.floor_nonneg.mpr h
  simp only [roundHE, ratFloor_eq_intFloor]
  split_ifs <;> omega

lemma round2_nonneg {q : Rat} (h : 0 ≤ q) : 0 ≤ round2 q := by
  have h1 : (0 : Rat) ≤ q * 100 := by positivity
  have h2 := roundHE_nonneg h1
  unfold round2
  have h3 : (0 : Rat) ≤ ((roundHE (q * 100) : Int) : Rat) := by exact_mod_cast h2
  positivity

lemma dictGet_cons {α : Type} (p : String × α) (rest : List (String × α)) (k : String) :
    dictGet (p :: rest) k = if p.1 = k then some p.2 else dictGet rest k := by
  by_cases h : p.1 = k
  · rw [if_pos h]
    unfold dictGet
    rw [List.find?_cons_of_pos _ (by simpa using h)]
    rfl
  · rw [if_neg h]
    unfold dictGet
    rw [List.find?_cons_of_neg _ (by simpa using h)]

lemma dictSet_cons {α : Type} (p : String × α) (rest : List (String × α)) (k : String) (v : α) :
    dictSet (p :: rest) k v = if p.1 = k then (k, v) :: rest else p :: dictSet rest k v := by
  rfl

lemma dictGet_dictSet_self {α : Type} (m : List (String × α)) (k : String) (v : α) :
    dictGet (dictSet m k v) k = some v := by
  induction m with
  | nil => simp [dictSet, dictGet_cons]
  | cons p rest ih =>
    by_cases h : p.1 = k
    · simp [dictSet_cons, h, dictGet_cons]
    · simp [dictSet_cons, h, dictGet_cons, ih]

lemma dictGet_dictSet_ne {α : Type} (m : List (String × α)) {k k' : String} (v : α)
    (h : k ≠ k') : dictGet (dictSet m k' v) k = dictGet m k := by
  induction m with
  | nil => simp [dictSet, dictGet_cons, Ne.symm h, dictGet]
  | cons p rest ih =>
    by_cases hp : p.1 = k'
    · have hpk : ¬ p.1 = k := by rw [hp]; exact Ne.symm h
      simp [dictSet_cons, hp, dictGet_cons, Ne.symm h, hpk, h]
    · by_cases hk : p.1 = k
      · simp [dictSet_cons, hp, dictGet_cons, hk, h]
      · simp [dictSet_cons, hp, dictGet_cons, hk, ih]

lemma mem_dictKeys_dictSet_iff {α : Type} (m : List (String × α)) (k : String) (v : α)
    (x : String) : x ∈ dictKeys (dictSet m k v) ↔ x ∈ dictKeys m ∨ x = k := by
  induction m with
  | nil => simp [dictKeys, dictSet]
  | cons p rest ih =>
    by_cases hp : p.1 = k
    · subst hp
      have hset : dictSet (p :: rest) p.1 v = (p.1, v) :: rest := by
        simp [dictSet_cons]
      rw [hset]
      simp only [dictKeys, List.map_cons, List.mem_cons]
      tauto
    · have hset : dictSet (p :: rest) k v = p :: dictSet rest k v := by
        simp [dictSet_cons, hp]
      rw [hset]
      simp only [dictKeys, List.map_cons, List.mem_cons]
      rw [show (List.map Prod.fst (dictSet rest k v) : List String)
        = dictKeys (dictSet rest k v) from rfl, ih]
      simp only [dictKeys]
      tauto

lemma mem_dictKeys_dictSet_self {α : Type} (m : List (String × α)) (k : String) (v : α) :
    k ∈ dictKeys (dictSet m k v) :=
  (mem_dictKeys_dictSet_iff m k v k).mpr (Or.inr rfl)

lemma mem_dictKeys_dictSet_of_mem {α : Type} (m : List (String × α)) {k : String}
    (k' : String) (v : α) (h : k ∈ dictKeys m) : k ∈ dictKeys (dictSet m k' v) :=
  (mem_dictKeys_dictSet_iff m k' v k).mpr (Or.inl h)

lemma mem_setInsert_self (s : List String) (x : String) : x ∈ setInsert s x := by
  unfold setInsert
  split_ifs with h
  · exact h
  · simp

lemma mem_setInsert_of_mem {s : List String} {y : String} (x : String) (h : y ∈ s) :
    y ∈ setInsert s x := by
  unfold setInsert
  split_ifs
  · exact h
  · simp [h]

lemma takeLast_eq_nil_iff {α : Type} {n : Nat} (hn : 0 < n) (l : List α) :
    takeLast n l = [] ↔ l = [] := by
  unfold takeLast
  rw [List.drop_eq_nil_iff, ← List.length_eq_zero]
  omega

lemma insort_length (x : Rat) (l : List Rat) : (insort x l).length = l.length + 1 := by
  induction l with
  | nil => rfl
  | cons y ys ih =>
    unfold insort
    split_ifs <;> simp [ih]

lemma sortRat_length (l : List Rat) : (sortRat l).length = l.length := by
  induction l with
  | nil => rfl
  | cons x xs ih => simp [sortRat, insort_length, ih]

/-! ## C2: severity classifier thresholds -/

/-- C2: the severity classifier of both modules uses inclusive lower
bounds — a score of at least 86 yields CRITICAL, at least 61 (and below
86) HIGH, at least 31 (and below 61) MEDIUM, and any lower score LOW; the
dashboard's copy agrees with the generator's; and the six boundary values
of the claim classify as stated. -/
theorem C2_severity_thresholds (s : Rat) :
    (86 ≤ s → GenLogs.get_severity_level s = "CRITICAL")
  ∧ (61 ≤ s → s < 86 → GenLogs.get_severity_level s = "HIGH")
  ∧ (31 ≤ s → s < 61 → GenLogs.get_severity_level s = "MEDIUM")
  ∧ (s < 31 → GenLogs.get_severity_level s = "LOW")
  ∧ Dashboard.get_severity_level s = GenLogs.get_severity_level s
  ∧ GenLogs.get_severity_level 85.99 = "HIGH"
  ∧ GenLogs.get_severity_level 86 = "CRITICAL"
  ∧ GenLogs.get_severity_level 60.99 = "MEDIUM"
  ∧ GenLogs.get_severity_level 61 = "HIGH"
  ∧ GenLogs.get_severity_level 30.99 = "LOW"
  ∧ GenLogs.get_severity_level 31 = "MEDIUM" := by
  refine ⟨?_, ?_, ?_, ?_, rfl, ?_, ?_, ?_, ?_, ?_, ?_⟩
  · intro h
    unfold GenLogs.get_severity_level
    rw [if_pos (show s ≥ 86 from h)]
  · intro h1 h2
    unfold GenLogs.get_severity_level
    rw [if_neg (show ¬ s ≥ 86 by linarith), if_pos (show s ≥ 61 from h1)]
  · intro h1 h2
    unfold GenLogs.get_severity_level
    rw [if_neg (show ¬ s ≥ 86 by linarith), if_neg (show ¬ s ≥ 61 by linarith),
      if_pos (show s ≥ 31 from h1)]
  · intro h
    unfold GenLogs.get_severity_level
    rw [if_neg (show ¬ s ≥ 86 by linarith), if_neg (show ¬ s ≥ 61 by linarith),
      if_neg (show ¬ s ≥ 31 by linarith)]
  all_goals unfold GenLogs.get_severity_level
  · rw [if_neg (show ¬ (85.99 : Rat) ≥ 86 by norm_num), if_pos (show (85.99 : Rat) ≥ 61 by norm_num)]
  · rw [if_pos (show (86 : Rat) ≥ 86 by norm_num)]
  · rw [if_neg (show ¬ (60.99 : Rat) ≥ 86 by norm_num), if_neg (show ¬ (60.99 : Rat) ≥ 61 by norm_num),
      if_pos (show (60.99 : Rat) ≥ 31 by norm_num)]
  · rw [if_neg (show ¬ (61 : Rat) ≥ 86 by norm_num), if_pos (show (61 : Rat) ≥ 61 by norm_num)]
  · rw [if_neg (show ¬ (30.99 : Rat) ≥ 86 by norm_num), if_neg (show ¬ (30.99 : Rat) ≥ 61 by norm_num),
      if_neg (show ¬ (30.99 : Rat) ≥ 31 by norm_num)]
  · rw [if_neg (show ¬ (31 : Rat) ≥ 86 by norm_num), if_neg (show ¬ (31 : Rat) ≥ 61 by norm_num),
      if_pos (show (31 : Rat) ≥ 31 by norm_num)]

/-- Witness for C2 at the boundary score 86. -/
theorem C2_witness : (86 : Rat) ≤ 86 ∧ GenLogs.get_severity_level 86 = "CRITICAL" :=
  ⟨by norm_num, (C2_severity_thresholds 86).1 (by norm_num)⟩

/-! ## C9: manual sanction lift -/

/-- C9: a manual-lift request with (non-empty) entity type and value: if
no sanction is stored under `"<type>:<value>"`, the request fails as
NotFound and the collection is neither mutated nor persisted; if one is
stored, its `active` flag is cleared, the collection is persisted, and the
record itself remains in the collection (under the same key). -/
theorem C9_remove_sanction (sanctions : List (String × GenLogs.Sanction))
    (s_type value : String) (ht : s_type ≠ "") (hv : value ≠ "") :
    (dictGet sanctions (s_type ++ ":" ++ value) = none →
      Dashboard.remove_sanction sanctions s_type value = (.not_found, sanctions, false))
  ∧ (∀ s, dictGet sanctions (s_type ++ ":" ++ value) = some s →
      Dashboard.remove_sanction sanctions s_type value
        = (.lifted, dictSet sanctions (s_type ++ ":" ++ value) { s with active := false }, true)
      ∧ dictGet (dictSet sanctions (s_type ++ ":" ++ value) { s with active := false })
          (s_type ++ ":" ++ value) = some { s with active := false }) := by
  have hcond : ¬ (s_type = "" ∨ value = "") := by
    rintro (h | h)
    · exact ht h
    · exact hv h
  constructor
  · intro h
    simp only [Dashboard.remove_sanction, if_neg hcond, h]
  · intro s h
    refine ⟨?_, dictGet_dictSet_self ..⟩
    simp only [Dashboard.remove_sanction, if_neg hcond, h]

/-- Witness for C9 on a concrete one-sanction collection. -/
theorem C9_witness :
    Dashboard.remove_sanction sanctsW "IP" "9.9.9.9"
      = (.lifted, dictSet sanctsW ("IP" ++ ":" ++ "9.9.9.9") { sancW with active := false }, true) :=
  ((C9_remove_sanction sanctsW "IP" "9.9.9.9" (by decide) (by decide)).2 sancW
    (by with_unfolding_all decide)).1

/-! ## C10: malformed expiry timestamps are swallowed -/

lemma clean_loop_mem_of (now : Rat) (scores : List (String × GenLogs.ScoreRec)) :
    ∀ (l : List (String × GenLogs.Sanction)) (entity : String) (s s' : GenLogs.Sanction),
      (entity, s) ∈ l → (Dashboard.clean_entry now scores entity s).1 = some s' →
      (entity, s') ∈ (Dashboard.clean_loop now scores l).1 := by
  intro l
  induction l with
  | nil => intro entity s s' h; simp at h
  | cons p rest ih =>
    intro entity s s' hmem hentry
    obtain ⟨pe, ps⟩ := p
    rcases List.mem_cons.mp hmem with heq | hmem'
    · obtain ⟨rfl, rfl⟩ := Prod.mk.injEq .. ▸ heq
      simp only [Dashboard.clean_loop, hentry]
      exact List.mem_cons_self _ _
    · simp only [Dashboard.clean_loop]
      cases hpe : (Dashboard.clean_entry now scores pe ps).1 with
      | some s2 => exact List.mem_cons_of_mem _ (ih entity s s' hmem' hentry)
      | none => exact ih entity s s' hmem' hentry

/-- C10: a stored sanction whose `expires_at` is present but not a
parseable ISO timestamp is never dropped for expiry reasons — provided its
entity still has a ThreatScore with score at least 31, the record survives
the reconciliation pass (with its severity recomputed), exactly as if it
had no expiry at all. -/
theorem C10_malformed_expiry (now : Rat) (scores : List (String × GenLogs.ScoreRec))
    (sanctions : List (String × GenLogs.Sanction)) (entity : String)
    (s : GenLogs.Sanction) (r : GenLogs.ScoreRec) (es : String)
    (hr : dictGet scores entity = some r) (hs : ¬ r.score < 31)
    (he : s.expires_at = some es) (hp : fromisoformat es = none) :
    (Dashboard.clean_entry now scores entity s).1
      = some { s with severity := Dashboard.get_severity_level r.score }
  ∧ ((entity, s) ∈ sanctions →
      (entity, { s with severity := Dashboard.get_severity_level r.score })
        ∈ (Dashboard.get_sanctions now scores sanctions).1) := by
  have h1 : (Dashboard.clean_entry now scores entity s).1
      = some { s with severity := Dashboard.get_severity_level r.score } := by
    unfold Dashboard.clean_entry
    rw [hr]
    simp only [if_neg hs]
    by_cases hsev : s.severity ≠ Dashboard.get_severity_level r.score
    · simp only [if_pos hsev, he, hp]
    · simp only [if_neg hsev, he, hp]
      push_neg at hsev
      cases s
      simp_all
  exact ⟨h1, fun hmem => clean_loop_mem_of now scores sanctions entity s _ hmem h1⟩

/-- Witness for C10: `expires_at = "not-a-date"` with a backing score of
40 survives reconciliation. -/
theorem C10_witness :
    (Dashboard.clean_entry 0 scoresW "IP:9.9.9.9" sancBadW).1
      = some { sancBadW with severity := Dashboard.get_severity_level recW.score }
  ∧ (("IP:9.9.9.9", sancBadW) ∈ sanctsBadW →
      ("IP:9.9.9.9", { sancBadW with severity := Dashboard.get_severity_level recW.score })
        ∈ (Dashboard.get_sanctions 0 scoresW sanctsBadW).1) :=
  C10_malformed_expiry 0 scoresW sanctsBadW "IP:9.9.9.9" sancBadW recW "not-a-date"
    (by with_unfolding_all decide) (by with_unfolding_all decide)
    (by with_unfolding_all decide) (by with_unfolding_all decide)

/-! ## C8: sanction reconciliation -/

lemma clean_entry_expires_at (s : GenLogs.Sanction) (cs : String) :
    (if s.severity ≠ cs then { s with severity := cs } else s).expires_at
      = s.expires_at := by
  split_ifs <;> rfl

lemma clean_entry_none_iff (now : Rat) (scores : List (String × GenLogs.ScoreRec))
    (entity : String) (s : GenLogs.Sanction) :
    (Dashboard.clean_entry now scores entity s).1 = none
      ↔ dropSpecC8 now scores entity s := by
  unfold Dashboard.clean_entry
  cases hr : dictGet scores entity with
  | none => simp [dropSpecC8, hr]
  | some r =>
    by_cases hs : r.score < 31
    · simp [dropSpecC8, hr, hs]
    · simp only [if_neg hs]
      rw [clean_entry_expires_at s (Dashboard.get_severity_level r.score)]
      rcases hee : s.expires_at with _ | es
      · simp [dropSpecC8, hr, hs, hee]
      · rcases hpe : fromisoformat es with _ | t
        · simp [dropSpecC8, hr, hs, hee, hpe]
        · by_cases hnow : now > t
          · simp [dropSpecC8, hr, hs, hee, hpe, hnow]
          · simp [dropSpecC8, hr, hs, hee, hpe, hnow]

/-- The expiry test of the cleanup loop, as a Boolean: a parseable
`expires_at` strictly in the past. -/
def expiredB (now : Rat) (s : GenLogs.Sanction) : Bool :=
  s.expires_at.elim false (fun es => (fromisoformat es).elim false (fun t => decide (now > t)))

lemma expiredB_iff (now : Rat) (s : GenLogs.Sanction) :
    expiredB now s = true
      ↔ ∃ es t, s.expires_at = some es ∧ fromisoformat es = some t ∧ t < now := by
  unfold expiredB
  rcases hee : s.expires_at with _ | es
  · simp
  · rcases hpe : fromisoformat es with _ | t
    · simp [hpe]
    · simp [hpe, GT.gt]

lemma clean_entry_eq (now : Rat) (scores : List (String × GenLogs.ScoreRec))
    (entity : String) (s : GenLogs.Sanction) :
    Dashboard.clean_entry now scores entity s
      = (dictGet scores entity).elim (none, true) (fun r =>
          if r.score < 31 then (none, true)
          else if expiredB now s then (none, true)
          else (some { s with severity := Dashboard.get_severity_level r.score },
                decide (s.severity ≠ Dashboard.get_severity_level r.score))) := by
  unfold Dashboard.clean_entry expiredB
  cases hr : dictGet scores entity with
  | none => rfl
  | some r =>
    simp only [Option.elim_some]
    by_cases hs : r.score < 31
    · simp [hs]
    · simp only [if_neg hs]
      rw [clean_entry_expires_at s (Dashboard.get_severity_level r.score)]
      rcases hee : s.expires_at with _ | es
      · by_cases hsev : s.severity ≠ Dashboard.get_severity_level r.score
        · simp [hsev]
        · push_neg at hsev
          rcases s with ⟨f1, f2, f3, f4, f5, f6, f7, f8, f9, f10, f11, f12, f13, f14⟩
          simp_all
      · rcases hpe : fromisoformat es with _ | t
        · by_cases hsev : s.severity ≠ Dashboard.get_severity_level r.score
          · simp [hpe, hsev]
          · push_neg at hsev
            rcases s with ⟨f1, f2, f3, f4, f5, f6, f7, f8, f9, f10, f11, f12, f13, f14⟩
            simp_all
        · by_cases hnow : now > t
          · simp [hpe, hnow]
          · by_cases hsev : s.severity ≠ Dashboard.get_severity_level r.score
            · simp [hpe, hnow, hsev]
            · push_neg at hsev
              rcases s with ⟨f1, f2, f3, f4, f5, f6, f7, f8, f9, f10, f11, f12, f13, f14⟩
              simp_all

lemma clean_entry_some_eq (now : Rat) (scores : List (String × GenLogs.ScoreRec))
    (entity : String) (s s' : GenLogs.Sanction)
    (h : (Dashboard.clean_entry now scores entity s).1 = some s') :
    ∃ r, dictGet scores entity = some r ∧ ¬ r.score < 31
      ∧ s' = { s with severity := Dashboard.get_severity_level r.score } := by
  rw [clean_entry_eq] at h
  rcases hr : dictGet scores entity with _ | r <;> rw [hr] at h
  · simp at h
  · simp only [Option.elim_some] at h
    by_cases hs : r.score < 31
    · simp [hs] at h
    · rw [if_neg hs] at h
      by_cases hb : expiredB now s = true
      · rw [if_pos hb] at h
        simp at h
      · rw [if_neg hb] at h
        simp only [Option.some.injEq] at h
        exact ⟨r, rfl, hs, h.symm⟩

lemma clean_entry_flag_iff (now : Rat) (scores : List (String × GenLogs.ScoreRec))
    (entity : String) (s : GenLogs.Sanction) :
    (Dashboard.clean_entry now scores entity s).2 = true
      ↔ dropSpecC8 now scores entity s ∨ fixSpecC8 scores entity s := by
  rw [clean_entry_eq]
  rcases hr : dictGet scores entity with _ | r
  · simp [dropSpecC8, fixSpecC8, hr]
  · simp only [Option.elim_some]
    by_cases hs : r.score < 31
    · simp [dropSpecC8, fixSpecC8, hr, hs]
    · rw [if_neg hs]
      by_cases hb : expiredB now s = true
      · rcases (expiredB_iff now s).mp hb with ⟨es, t, hee, hpe, ht⟩
        rw [if_pos hb]
        simp only [dropSpecC8, fixSpecC8, hr]
        constructor
        · intro _
          exact Or.inl (Or.inr (Or.inr ⟨es, t, hee, hpe, ht⟩))
        · intro _
          simp
      · have hb' : ∀ es t, s.expires_at = some es → fromisoformat es = some t → ¬ t < now := by
          intro es t hee hpe ht
          exact hb ((expiredB_iff now s).mpr ⟨es, t, hee, hpe, ht⟩)
        rw [if_neg hb]
        simp only [dropSpecC8, fixSpecC8, hr, decide_eq_true_iff]
        constructor
        · intro hne
          exact Or.inr ⟨r, rfl, hs, hne⟩
        · rintro (h1 | ⟨r', hr', _, hne⟩)
          · rcases h1 with h1 | ⟨r', hr', hs'⟩ | ⟨es, t, hee, hpe, ht⟩
            · exact absurd h1 (by simp)
            · rw [Option.some.injEq] at hr'
              exact absurd (hr' ▸ hs') hs
            · exact absurd ht (hb' es t hee hpe)
          · rw [Option.some.injEq] at hr'
            exact hr' ▸ hne

lemma clean_loop_eq_filterMap (now : Rat) (scores : List (String × GenLogs.ScoreRec))
    (l : List (String × GenLogs.Sanction)) :
    (Dashboard.clean_loop now scores l).1
      = l.filterMap (fun p =>
          ((Dashboard.clean_entry now scores p.1 p.2).1).map (fun s' => (p.1, s'))) := by
  induction l with
  | nil => rfl
  | cons p rest ih =>
    obtain ⟨pe, ps⟩ := p
    simp only [Dashboard.clean_loop, List.filterMap_cons]
    cases hpe : (Dashboard.clean_entry now scores pe ps).1 with
    | none => simpa [hpe] using ih
    | some s2 => simpa [hpe] using ih

lemma clean_loop_flag_iff (now : Rat) (scores : List (String × GenLogs.ScoreRec))
    (l : List (String × GenLogs.Sanction)) :
    (Dashboard.clean_loop now scores l).2 = true
      ↔ ∃ p ∈ l, (Dashboard.clean_entry now scores p.1 p.2).2 = true := by
  induction l with
  | nil => simp [Dashboard.clean_loop]
  | cons p rest ih =>
    obtain ⟨pe, ps⟩ := p
    simp only [Dashboard.clean_loop, Bool.or_eq_true, ih, List.mem_cons]
    constructor
    · rintro (h1 | ⟨q, hq, hq2⟩)
      · exact ⟨(pe, ps), Or.inl rfl, h1⟩
      · exact ⟨q, Or.inr hq, hq2⟩
    · rintro ⟨q, hq | hq, hq2⟩
      · subst hq
        exact Or.inl hq2
      · exact Or.inr ⟨q, hq, hq2⟩

/-! ## C8: the reconciliation theorem -/

/-- C8: the reconciliation pass of `/api/sanctions` keeps exactly the
sanctions whose entity has a backing ThreatScore with score at least 31
and whose (parseable) expiry is not in the past; every survivor's severity
is recomputed from the current score; and the collection is persisted iff
some sanction was dropped or had its severity corrected. -/
theorem C8_reconciliation (now : Rat) (scores : List (String × GenLogs.ScoreRec))
    (sanctions : List (String × GenLogs.Sanction)) :
    ((Dashboard.get_sanctions now scores sanctions).1
        = sanctions.filterMap (fun p =>
            ((Dashboard.clean_entry now scores p.1 p.2).1).map (fun s' => (p.1, s'))))
  ∧ (∀ entity s, (Dashboard.clean_entry now scores entity s).1 = none
        ↔ dropSpecC8 now scores entity s)
  ∧ (∀ entity s s', (Dashboard.clean_entry now scores entity s).1 = some s' →
        ∃ r, dictGet scores entity = some r ∧ ¬ r.score < 31
          ∧ s' = { s with severity := Dashboard.get_severity_level r.score })
  ∧ ((Dashboard.get_sanctions now scores sanctions).2 = true
        ↔ ∃ p ∈ sanctions, dropSpecC8 now scores p.1 p.2 ∨ fixSpecC8 scores p.1 p.2) := by
  refine ⟨clean_loop_eq_filterMap now scores sanctions,
    fun entity s => clean_entry_none_iff now scores entity s,
    fun entity s s' h => clean_entry_some_eq now scores entity s s' h, ?_⟩
  rw [show (Dashboard.get_sanctions now scores sanctions).2
      = (Dashboard.clean_loop now scores sanctions).2 from rfl,
    clean_loop_flag_iff now scores sanctions]
  constructor
  · rintro ⟨p, hp, hflag⟩
    exact ⟨p, hp, (clean_entry_flag_iff now scores p.1 p.2).mp hflag⟩
  · rintro ⟨p, hp, hcond⟩
    exact ⟨p, hp, (clean_entry_flag_iff now scores p.1 p.2).mpr hcond⟩

/-- Witness for C8: a sanction with stale severity HIGH over a score of 40
survives with severity corrected to MEDIUM, and the pass reports a change. -/
theorem C8_witness :
    (∃ r, dictGet scoresW "IP:9.9.9.9" = some r ∧ ¬ r.score < 31
      ∧ ({ sancW with severity := "MEDIUM" } : GenLogs.Sanction)
          = { sancW with severity := Dashboard.get_severity_level r.score })
  ∧ (Dashboard.get_sanctions 0 scoresW sanctsW).2 = true :=
  ⟨(C8_reconciliation 0 scoresW sanctsW).2.2.1 "IP:9.9.9.9" sancW
      { sancW with severity := "MEDIUM" } (by with_unfolding_all decide),
    ((C8_reconciliation 0 scoresW sanctsW).2.2.2).mpr
      ⟨("IP:9.9.9.9", sancW), by decide, Or.inr ⟨recW,
        by with_unfolding_all decide, by with_unfolding_all decide,
        by with_unfolding_all decide⟩⟩⟩

/-! ## C1: component bounds and the total-score equation -/

lemma failed_score_bounds (pexp : Rat → Rat) (hexp : ∀ q : Rat, q ≤ 0 → pexp q ≤ 1)
    (x : Rat) (hx : 0 ≤ x) :
    0 ≤ min GenLogs.SCORING_WEIGHTS_failed_attempts
        (round2 (GenLogs.SCORING_WEIGHTS_failed_attempts * (1 - pexp (-(x / 3)))))
  ∧ min GenLogs.SCORING_WEIGHTS_failed_attempts
        (round2 (GenLogs.SCORING_WEIGHTS_failed_attempts * (1 - pexp (-(x / 3))))) ≤ 25 := by
  have harg : -(x / 3) ≤ 0 := by
    have : (0 : Rat) ≤ x / 3 := by positivity
    linarith
  have hp := hexp _ harg
  have h1 : (0 : Rat) ≤ 1 - pexp (-(x / 3)) := by linarith
  have hw : (0 : Rat) ≤ GenLogs.SCORING_WEIGHTS_failed_attempts := by
    norm_num [GenLogs.SCORING_WEIGHTS_failed_attempts]
  constructor
  · exact le_min hw (round2_nonneg (mul_nonneg hw h1))
  · exact le_trans (min_le_left _ _) (by norm_num [GenLogs.SCORING_WEIGHTS_failed_attempts])

lemma failed_attempts_block_bounds (pexp : Rat → Rat)
    (hexp : ∀ q : Rat, q ≤ 0 → pexp q ≤ 1) (nf len : Nat) :
    0 ≤ (GenLogs.failed_attempts_block pexp nf len).1
  ∧ (GenLogs.failed_attempts_block pexp nf len).1 ≤ 25 := by
  unfold GenLogs.failed_attempts_block
  split_ifs with h
  · dsimp only
    exact failed_score_bounds pexp hexp _ (by positivity)
  · dsimp only
    norm_num

lemma attack_speed_block_bounds (times : List Rat) :
    0 ≤ (GenLogs.attack_speed_block times).1
  ∧ (GenLogs.attack_speed_block times).1 ≤ 20 := by
  unfold GenLogs.attack_speed_block
  dsimp only
  split_ifs <;> constructor <;> with_unfolding_all decide

lemma tool_loop_bounds (l : List String) :
    0 ≤ (GenLogs.tool_loop l).1 ∧ (GenLogs.tool_loop l).1 ≤ 15 := by
  induction l with
  | nil => constructor <;> with_unfolding_all decide
  | cons ua rest ih =>
    unfold GenLogs.tool_loop
    split_ifs
    · dsimp only
      constructor <;> with_unfolding_all decide
    · exact ih

lemma geo_loop_bounds : ∀ (l : List String) (acc : Rat) (rs : List String),
    0 ≤ acc → acc ≤ 10 →
    0 ≤ (GenLogs.geo_loop l acc rs).1 ∧ (GenLogs.geo_loop l acc rs).1 ≤ 10 := by
  intro l
  induction l with
  | nil =>
    intro acc rs h1 h2
    exact ⟨h1, h2⟩
  | cons c rest ih =>
    intro acc rs h1 h2
    unfold GenLogs.geo_loop
    split_ifs
    · dsimp only
      constructor
      · exact le_max_of_le_right (by norm_num [GenLogs.SCORING_WEIGHTS_geographic_risk])
      · exact max_le h2 (by norm_num [GenLogs.SCORING_WEIGHTS_geographic_risk])
    · exact ih _ _ (le_max_of_le_left h1) (max_le h2 (by norm_num))
    · exact ih _ _ h1 h2

lemma user_spread_block_bounds (n : Nat) :
    0 ≤ (GenLogs.user_spread_block n).1 ∧ (GenLogs.user_spread_block n).1 ≤ 15 := by
  unfold GenLogs.user_spread_block
  split_ifs <;> dsimp only <;> constructor <;> with_unfolding_all decide

lemma persistence_block_bounds (times : List Rat) :
    0 ≤ (GenLogs.persistence_block times).1
  ∧ (GenLogs.persistence_block times).1 ≤ 15 := by
  unfold GenLogs.persistence_block
  dsimp only
  split_ifs <;> dsimp only <;> constructor <;> with_unfolding_all decide

/-- C1 (amended): every component of every computed score is non-negative;
`failed_attempts`, `attack_speed`, `tool_detection`, `geographic_risk` and
`persistence` are bounded by their configured weights (25, 20, 15, 10, 15),
while `user_spread` is bounded by its weight *plus the 5-point
high-value-target bonus*, i.e. by 20 (the `min(100, ...)` cap never binds);
and the returned total equals `min(100, round2(sum of components))`. -/
theorem C1_component_bounds (pexp : Rat → Rat) (hexp : ∀ q : Rat, q ≤ 0 → pexp q ≤ 1)
    (now : Rat) (events : List GenLogs.Event) (ip : String) :
    (0 ≤ (GenLogs.calculate_threat_score_ip pexp now events ip).2.2.1.failed_attempts
      ∧ (GenLogs.calculate_threat_score_ip pexp now events ip).2.2.1.failed_attempts ≤ 25)
  ∧ (0 ≤ (GenLogs.calculate_threat_score_ip pexp now events ip).2.2.1.attack_speed
      ∧ (GenLogs.calculate_threat_score_ip pexp now events ip).2.2.1.attack_speed ≤ 20)
  ∧ (0 ≤ (GenLogs.calculate_threat_score_ip pexp now events ip).2.2.1.tool_detection
      ∧ (GenLogs.calculate_threat_score_ip pexp now events ip).2.2.1.tool_detection ≤ 15)
  ∧ (0 ≤ (GenLogs.calculate_threat_score_ip pexp now events ip).2.2.1.geographic_risk
      ∧ (GenLogs.calculate_threat_score_ip pexp now events ip).2.2.1.geographic_risk ≤ 10)
  ∧ (0 ≤ (GenLogs.calculate_threat_score_ip pexp now events ip).2.2.1.user_spread
      ∧ (GenLogs.calculate_threat_score_ip pexp now events ip).2.2.1.user_spread ≤ 20)
  ∧ (0 ≤ (GenLogs.calculate_threat_score_ip pexp now events ip).2.2.1.persistence
      ∧ (GenLogs.calculate_threat_score_ip pexp now events ip).2.2.1.persistence ≤ 15)
  ∧ (GenLogs.calculate_threat_score_ip pexp now events ip).1
      = min 100 (round2 (GenLogs.sumComponents
          (GenLogs.calculate_threat_score_ip pexp now events ip).2.2.1)) := by
  simp only [GenLogs.calculate_threat_score_ip]
  split_ifs with hemp
  · refine ⟨?_, ?_, ?_, ?_, ?_, ?_, ?_⟩ <;>
      first
        | (constructor <;> with_unfolding_all decide)
        | with_unfolding_all decide
  · simp only [GenLogs.components_of]
    refine ⟨failed_attempts_block_bounds pexp hexp _ _,
      attack_speed_block_bounds _, tool_loop_bounds _,
      geo_loop_bounds _ 0 [] le_rfl (by norm_num), ?_, persistence_block_bounds _, ?_⟩
    · have hus := user_spread_block_bounds
        (GenLogs.stats_of (takeLast 200 (events.filter (fun e => e.ip = ip)))).unique_users.length
      split_ifs
      · constructor
        · exact le_min (by norm_num) (by linarith [hus.1])
        · exact le_trans (min_le_right _ _) (by linarith [hus.2])
      · exact ⟨hus.1, le_trans hus.2 (by norm_num)⟩
    · exact min_comm _ _

/-- Counterexample for C1 as stated: fifteen distinct users, one of them
the high-value target `admin`, drive the returned `user_spread` component
to 20 — strictly above its configured weight of 15. -/
theorem C1_counterexample :
    ¬ ((GenLogs.calculate_threat_score_ip pexp0 0 c1Events "9.9.9.9").2.2.1.user_spread
        ≤ GenLogs.SCORING_WEIGHTS_user_spread) := by
  with_unfolding_all decide

/-- Witness for C1 applied at a concrete exponential stand-in and input. -/
theorem C1_witness :
    (GenLogs.calculate_threat_score_ip pexp0 0 [] "").1
      = min 100 (round2 (GenLogs.sumComponents
          (GenLogs.calculate_threat_score_ip pexp0 0 [] "").2.2.1)) :=
  (C1_component_bounds pexp0 (fun q _ => by norm_num [pexp0]) 0 [] "").2.2.2.2.2.2

/-! ## C3: unparsable timestamps -/

lemma foldl_agg_mem (f : GenLogs.AggStats → List String) (g : GenLogs.Event → String)
    (hstep : ∀ st e x, x ∈ f st → x ∈ f (GenLogs.agg_step st e))
    (hself : ∀ st e, g e ≠ "" → g e ∈ f (GenLogs.agg_step st e)) :
    ∀ (l : List GenLogs.Event) (st : GenLogs.AggStats) (e0 : GenLogs.Event),
      e0 ∈ l → g e0 ≠ "" → g e0 ∈ f (l.foldl GenLogs.agg_step st) := by
  have hmono : ∀ (l : List GenLogs.Event) (st : GenLogs.AggStats) (x : String),
      x ∈ f st → x ∈ f (l.foldl GenLogs.agg_step st) := by
    intro l
    induction l with
    | nil => intro st x h; exact h
    | cons e rest ih =>
      intro st x h
      exact ih _ _ (hstep st e x h)
  intro l
  induction l with
  | nil => intro st e0 h; simp at h
  | cons e rest ih =>
    intro st e0 hmem hne
    rcases List.mem_cons.mp hmem with rfl | hmem'
    · exact hmono rest _ _ (hself st e0 hne)
    · exact ih _ e0 hmem' hne

lemma agg_step_users_mono (st : GenLogs.AggStats) (e : GenLogs.Event) (x : String)
    (h : x ∈ st.unique_users) : x ∈ (GenLogs.agg_step st e).unique_users := by
  unfold GenLogs.agg_step
  dsimp only
  split_ifs
  · exact mem_setInsert_of_mem _ h
  · exact h

lemma agg_step_users_self (st : GenLogs.AggStats) (e : GenLogs.Event)
    (h : e.user ≠ "") : e.user ∈ (GenLogs.agg_step st e).unique_users := by
  unfold GenLogs.agg_step
  dsimp only
  rw [if_pos h]
  exact mem_setInsert_self _ _

lemma agg_step_countries_mono (st : GenLogs.AggStats) (e : GenLogs.Event) (x : String)
    (h : x ∈ st.countries) : x ∈ (GenLogs.agg_step st e).countries := by
  unfold GenLogs.agg_step
  dsimp only
  split_ifs
  · exact mem_setInsert_of_mem _ h
  · exact h

lemma agg_step_countries_self (st : GenLogs.AggStats) (e : GenLogs.Event)
    (h : e.country ≠ "") : e.country ∈ (GenLogs.agg_step st e).countries := by
  unfold GenLogs.agg_step
  dsimp only
  rw [if_pos h]
  exact mem_setInsert_self _ _

lemma agg_step_uas_mono (st : GenLogs.AggStats) (e : GenLogs.Event) (x : String)
    (h : x ∈ st.user_agents) : x ∈ (GenLogs.agg_step st e).user_agents := by
  unfold GenLogs.agg_step
  dsimp only
  split_ifs
  · exact mem_setInsert_of_mem _ h
  · exact h

lemma agg_step_uas_self (st : GenLogs.AggStats) (e : GenLogs.Event)
    (h : e.ua ≠ "") : e.ua ∈ (GenLogs.agg_step st e).user_agents := by
  unfold GenLogs.agg_step
  dsimp only
  rw [if_pos h]
  exact mem_setInsert_self _ _

lemma foldl_agg_total (l : List GenLogs.Event) (st : GenLogs.AggStats) :
    (l.foldl GenLogs.agg_step st).total_attempts = st.total_attempts := by
  induction l generalizing st with
  | nil => rfl
  | cons e rest ih => exact (ih _).trans rfl

/-- C3 (amended): an event whose date/time strings fail both formats is
*not* excluded from the timing computation — `parse_datetime` falls back
to the current clock `now`, so every recent event contributes exactly one
timestamp (the timing list has one entry per event) — while the event is,
as the claim says, still counted in the attempt/user/country/user-agent
aggregates. -/
theorem C3_unparsable_timestamps (pexp : Rat → Rat) (now : Rat)
    (events : List GenLogs.Event) (ip : String) :
    ((GenLogs.times_of now (GenLogs.recent_of events ip)).length
        = (GenLogs.recent_of events ip).length)
  ∧ (∀ e : GenLogs.Event, strptime2 (e.date ++ " " ++ e.time) = none →
        GenLogs.parse_datetime now e.date e.time = now)
  ∧ (∀ e ∈ GenLogs.recent_of events ip,
        (e.user ≠ "" → e.user ∈ (GenLogs.stats_of (GenLogs.recent_of events ip)).unique_users)
      ∧ (e.country ≠ "" → e.country ∈ (GenLogs.stats_of (GenLogs.recent_of events ip)).countries)
      ∧ (e.ua ≠ "" → e.ua ∈ (GenLogs.stats_of (GenLogs.recent_of events ip)).user_agents))
  ∧ (GenLogs.stats_of (GenLogs.recent_of events ip)).total_attempts
      = (GenLogs.recent_of events ip).length := by
  refine ⟨?_, ?_, ?_, ?_⟩
  · unfold GenLogs.times_of
    rw [sortRat_length, List.length_map]
  · intro e h
    unfold GenLogs.parse_datetime
    rw [h]
    rfl
  · intro e hmem
    refine ⟨?_, ?_, ?_⟩
    · intro hne
      exact foldl_agg_mem (fun st => st.unique_users) (fun e => e.user)
        agg_step_users_mono agg_step_users_self _ _ e hmem hne
    · intro hne
      exact foldl_agg_mem (fun st => st.countries) (fun e => e.country)
        agg_step_countries_mono agg_step_countries_self _ _ e hmem hne
    · intro hne
      exact foldl_agg_mem (fun st => st.user_agents) (fun e => e.ua)
        agg_step_uas_mono agg_step_uas_self _ _ e hmem hne
  · unfold GenLogs.stats_of
    rw [foldl_agg_total]
    rfl

/-- Counterexample for C3 as stated: with one parseable event at 10:00 and
one unparsable event, at clock 10:20 the unparsable event contributes the
clock time to the span, so the persistence component fires with the full
weight 15 — whereas excluding the event (the claim's procedure,
`claimC3_times`) leaves a single timestamp and a persistence of 0. -/
theorem C3_counterexample :
    (GenLogs.calculate_threat_score_ip pexp0 nowC3 c3Events "6.6.6.6").2.2.1.persistence = 15
  ∧ strptime2 ("garbage" ++ " " ++ "x") = none
  ∧ (GenLogs.persistence_block (claimC3_times c3Events)).1 = 0 := by
  with_unfolding_all decide

/-- Witness for C3: the fallback on a concrete unparsable event. -/
theorem C3_witness :
    GenLogs.parse_datetime 5 "garbage" "x" = 5 :=
  (C3_unparsable_timestamps pexp0 5 [] "").2.1 (mkEv "garbage" "x" "" "" "" "" "")
    (by with_unfolding_all decide)

/-! ## C4: which events influence a stored score -/

lemma detect_loop_scores_src (pexp : Rat → Rat) (now : Rat) (events : List GenLogs.Event) :
    ∀ (groups : List (String × List GenLogs.Event)) (alerts : List GenLogs.Alert)
      (scores : List (String × GenLogs.ScoreRec)) (sanctions : List (String × GenLogs.Sanction))
      (alerted : List String) (k : String) (v : GenLogs.ScoreRec),
      dictGet (GenLogs.detect_loop pexp now events groups alerts scores sanctions alerted).2.1 k
        = some v →
      dictGet scores k = some v
        ∨ ∃ ip', k = "IP:" ++ ip' ∧ v = GenLogs.mkScoreRec pexp now events ip' := by
  intro groups
  induction groups with
  | nil =>
    intro alerts scores sanctions alerted k v h
    exact Or.inl h
  | cons g rest ih =>
    obtain ⟨gip, gevs⟩ := g
    intro alerts scores sanctions alerted k v h
    simp only [GenLogs.detect_loop] at h
    by_cases h3 : gevs.length < 3
    · rw [if_pos h3] at h
      exact ih _ _ _ _ k v h
    · rw [if_neg h3] at h
      by_cases hsc : 31 ≤ (GenLogs.calculate_threat_score_ip pexp now events gip).1
      · rw [if_pos hsc] at h
        by_cases hal : gip ∈ alerted
        · rw [if_pos hal] at h
          rcases ih _ _ _ _ k v h with h1 | h1
          · by_cases hk : k = "IP:" ++ gip
            · subst hk
              rw [dictGet_dictSet_self] at h1
              simp only [Option.some.injEq] at h1
              exact Or.inr ⟨gip, rfl, h1.symm⟩
            · rw [dictGet_dictSet_ne _ _ hk] at h1
              exact Or.inl h1
          · exact Or.inr h1
        · rw [if_neg hal] at h
          rcases ih _ _ _ _ k v h with h1 | h1
          · by_cases hk : k = "IP:" ++ gip
            · subst hk
              rw [dictGet_dictSet_self] at h1
              simp only [Option.some.injEq] at h1
              exact Or.inr ⟨gip, rfl, h1.symm⟩
            · rw [dictGet_dictSet_ne _ _ hk] at h1
              exact Or.inl h1
          · exact Or.inr h1
      · rw [if_neg hsc] at h
        exact ih _ _ _ _ k v h

/-- C4 (amended): a stored score depends only on the target IP's 200 most
recent events of the *full* event store — two stores with the same
per-IP recency-capped list score identically — and every ThreatScore
entry added by the detection cycle is `calculate_threat_score_ip`
evaluated on the full store (not on the trailing 1000-event window, which
only gates grouping and the minimum-3-events check). -/
theorem C4_recency_cap (pexp : Rat → Rat) (now : Rat)
    (events events' : List GenLogs.Event) (ip : String)
    (alerts0 : List GenLogs.Alert) (scores0 : List (String × GenLogs.ScoreRec))
    (sanctions0 : List (String × GenLogs.Sanction))
    (h : GenLogs.recent_of events ip = GenLogs.recent_of events' ip) :
    (GenLogs.calculate_threat_score_ip pexp now events ip
      = GenLogs.calculate_threat_score_ip pexp now events' ip)
  ∧ (∀ k v, dictGet
        (GenLogs.detect_threats_by_ip pexp now events alerts0 scores0 sanctions0).2.1 k
        = some v →
      dictGet scores0 k = some v
        ∨ ∃ ip', k = "IP:" ++ ip' ∧ v = GenLogs.mkScoreRec pexp now events ip') := by
  constructor
  · have h' := h
    unfold GenLogs.recent_of at h'
    have hiff : (events.filter (fun e => e.ip = ip) = [])
        ↔ (events'.filter (fun e => e.ip = ip) = []) := by
      constructor <;> intro hnil
      · have h2 : takeLast 200 (events'.filter (fun e => e.ip = ip)) = [] := by
          rw [← h', hnil]
          rfl
        exact (takeLast_eq_nil_iff (by norm_num) _).mp h2
      · have h2 : takeLast 200 (events.filter (fun e => e.ip = ip)) = [] := by
          rw [h', hnil]
          rfl
        exact (takeLast_eq_nil_iff (by norm_num) _).mp h2
    by_cases hnil : events.filter (fun e => e.ip = ip) = []
    · have hnil' : events'.filter (fun e => e.ip = ip) = [] := hiff.mp hnil
      simp only [GenLogs.calculate_threat_score_ip, if_pos hnil, if_pos hnil']
    · have hnil' : ¬ events'.filter (fun e => e.ip = ip) = [] := fun hx => hnil (hiff.mpr hx)
      simp only [GenLogs.calculate_threat_score_ip, if_neg hnil, if_neg hnil']
      rw [h']
  · intro k v hget
    unfold GenLogs.detect_threats_by_ip at hget
    exact detect_loop_scores_src pexp now events _ _ _ _ _ k v hget

/-- Counterexample for C4 as stated: in `c4Events` (1001 events) the
oldest event lies outside the trailing 1000-event window yet changes the
stored score — the detection cycle stores a score of 45 for the IP
(geographic risk 10 from the old event's "RU", persistence 15 from its
timestamp), while the same computation restricted to the trailing window
yields 20, below the storage threshold of 31. -/
theorem C4_counterexample :
    dictGet (GenLogs.detect_threats_by_ip pexp0 nowC4 c4Events [] [] []).2.1 "IP:9.9.9.9"
      = some (GenLogs.mkScoreRec pexp0 nowC4 c4Events "9.9.9.9")
  ∧ (GenLogs.calculate_threat_score_ip pexp0 nowC4 c4Events "9.9.9.9").1 = 45
  ∧ (GenLogs.calculate_threat_score_ip pexp0 nowC4 (takeLast 1000 c4Events) "9.9.9.9").1 = 20 := by
  with_unfolding_all decide

/-- Witness for C4: prepending an event of a different IP leaves the
recency-capped list, hence the whole score, unchanged. -/
theorem C4_witness :
    GenLogs.calculate_threat_score_ip pexp0 0 c5Events "5.39.1.2"
      = GenLogs.calculate_threat_score_ip pexp0 0 (fillEvt :: c5Events) "5.39.1.2" :=
  (C4_recency_cap pexp0 0 c5Events (fillEvt :: c5Events) "5.39.1.2" [] [] []
    (by with_unfolding_all decide)).1

/-! ## C5: the benign 4-event scenario -/

/-- Counterexample for C5 as stated: the scenario's score is not 0. -/
theorem C5_counterexample :
    ¬ ((GenLogs.calculate_threat_score_ip pexp0 0 c5Events "5.39.1.2").1 = 0) := by
  with_unfolding_all decide

/-- C5 (amended): for the claim's scenario — 4 events from one IP, all
SUCCESS, a single non-high-value user, country FR, a non-suspicious
user-agent, timestamps 3 minutes apart — the computed score is 9, not 0
(the 9-minute span reaches the 7.5-minute half-persistence threshold, so
`persistence = round(15·0.6, 2) = 9`); since 9 < 31 the detection cycle
still creates no ThreatScore entry, no Sanction and no Alert. -/
theorem C5_amended :
    (GenLogs.calculate_threat_score_ip pexp0 0 c5Events "5.39.1.2").1 = 9
  ∧ (GenLogs.calculate_threat_score_ip pexp0 0 c5Events "5.39.1.2").2.2.1.persistence = 9
  ∧ GenLogs.detect_threats_by_ip pexp0 0 c5Events [] [] [] = ([], [], []) := by
  with_unfolding_all decide

/-! ## C6: attack-speed trimming -/

/-- Counterexample for C6 as stated: three events 0.1 s and 0.2 s apart give
exactly two inter-event gaps; the program trims nothing and scores the
full weight 20, while the claim's always-trim procedure empties the list
and yields 0. -/
theorem C6_counterexample :
    (GenLogs.calculate_threat_score_ip pexp0 0 c6Events "7.7.7.7").2.2.1.attack_speed = 20
  ∧ claimC6_attack_speed (GenLogs.times_of 0 (GenLogs.recent_of c6Events "7.7.7.7")) = 0 := by
  with_unfolding_all decide

/-- C6 (amended): for at least 3 timestamps the attack-speed component
sorts the inter-event gaps and trims `max(1, ⌊n/10⌋)` gaps per side *only
when the gap count exceeds twice that cut*; otherwise all gaps are
averaged untrimmed; the tiers on the average are as the claim states
(<0.25 s → 20, <0.6 s → 16, <1.5 s → 10, else 0). -/
theorem C6_amended (times : List Rat) (h : 3 ≤ times.length) :
    (GenLogs.attack_speed_block times).1 = claimC6_amended_attack_speed times := by
  unfold GenLogs.attack_speed_block claimC6_amended_attack_speed
  rw [if_pos h]
  dsimp only
  split_ifs <;> rfl

/-- Witness for C6 at three concrete timestamps. -/
theorem C6_witness :
    (GenLogs.attack_speed_block [0, 1/10, 3/10]).1
      = claimC6_amended_attack_speed [0, 1/10, 3/10] :=
  C6_amended [0, 1/10, 3/10] (by norm_num)

/-! ## C7: at most one "Threat Detection" alert per IP -/

lemma mkAlert_type (pexp : Rat → Rat) (now : Rat) (events : List GenLogs.Event)
    (ip : String) (evs : List GenLogs.Event) :
    (GenLogs.mkAlert pexp now events ip evs).type_ = "Threat Detection" := rfl

lemma mkAlert_ip (pexp : Rat → Rat) (now : Rat) (events : List GenLogs.Event)
    (ip : String) (evs : List GenLogs.Event) :
    (GenLogs.mkAlert pexp now events ip evs).ip = ip := rfl

lemma isTD_mkAlert (pexp : Rat → Rat) (now : Rat) (events : List GenLogs.Event)
    (ip0 ip : String) (evs : List GenLogs.Event) :
    isTD ip0 (GenLogs.mkAlert pexp now events ip evs) = (ip == ip0) := by
  simp [isTD, mkAlert_type, mkAlert_ip]

lemma severity_config_exists {s : Rat} (h : 31 ≤ s) :
    ∃ cfg, GenLogs.sanction_config (GenLogs.get_severity_level s) = some cfg := by
  unfold GenLogs.get_severity_level
  split_ifs with h1 h2 h3 <;>
    first
      | exact ⟨_, rfl⟩
      | exact absurd (show s ≥ 31 from h) (by assumption)

lemma apply_sanction_keys_mono (now : Rat) (sanctions : List (String × GenLogs.Sanction))
    (et value : String) (score : Rat) (severity : String) (reasons : List String)
    (components : GenLogs.ScoreComponents) (k : String) (h : k ∈ dictKeys sanctions) :
    k ∈ dictKeys (GenLogs.apply_sanction now sanctions et value score severity reasons components) := by
  unfold GenLogs.apply_sanction
  cases GenLogs.sanction_config severity with
  | none => exact h
  | some cfg => exact mem_dictKeys_dictSet_of_mem _ _ _ h

lemma apply_sanction_key_self (now : Rat) (sanctions : List (String × GenLogs.Sanction))
    (et value : String) (score : Rat) (severity : String) (reasons : List String)
    (components : GenLogs.ScoreComponents) (cfg : GenLogs.SanctionCfg)
    (hcfg : GenLogs.sanction_config severity = some cfg) :
    (et ++ ":" ++ value) ∈ dictKeys
      (GenLogs.apply_sanction now sanctions et value score severity reasons components) := by
  unfold GenLogs.apply_sanction
  rw [hcfg]
  exact mem_dictKeys_dictSet_self _ _ _

lemma detect_loop_keys_mono (pexp : Rat → Rat) (now : Rat) (events : List GenLogs.Event) :
    ∀ (groups : List (String × List GenLogs.Event)) (alerts : List GenLogs.Alert)
      (scores : List (String × GenLogs.ScoreRec)) (sanctions : List (String × GenLogs.Sanction))
      (alerted : List String) (k : String),
      (k ∈ dictKeys scores →
        k ∈ dictKeys (GenLogs.detect_loop pexp now events groups alerts scores sanctions alerted).2.1)
    ∧ (k ∈ dictKeys sanctions →
        k ∈ dictKeys (GenLogs.detect_loop pexp now events groups alerts scores sanctions alerted).2.2) := by
  intro groups
  induction groups with
  | nil =>
    intro alerts scores sanctions alerted k
    exact ⟨id, id⟩
  | cons g rest ih =>
    obtain ⟨gip, gevs⟩ := g
    intro alerts scores sanctions alerted k
    simp only [GenLogs.detect_loop]
    by_cases h3 : gevs.length < 3
    · rw [if_pos h3]
      exact ih _ _ _ _ k
    · rw [if_neg h3]
      by_cases hsc : 31 ≤ (GenLogs.calculate_threat_score_ip pexp now events gip).1
      · rw [if_pos hsc]
        by_cases hal : gip ∈ alerted
        · rw [if_pos hal]
          exact ⟨fun h => (ih _ _ _ _ k).1 (mem_dictKeys_dictSet_of_mem _ _ _ h),
            fun h => (ih _ _ _ _ k).2 (apply_sanction_keys_mono _ _ _ _ _ _ _ _ k h)⟩
        · rw [if_neg hal]
          exact ⟨fun h => (ih _ _ _ _ k).1 (mem_dictKeys_dictSet_of_mem _ _ _ h),
            fun h => (ih _ _ _ _ k).2 (apply_sanction_keys_mono _ _ _ _ _ _ _ _ k h)⟩
      · rw [if_neg hsc]
        exact ih _ _ _ _ k

lemma detect_loop_scored (pexp : Rat → Rat) (now : Rat) (events : List GenLogs.Event) :
    ∀ (groups : List (String × List GenLogs.Event)) (alerts : List GenLogs.Alert)
      (scores : List (String × GenLogs.ScoreRec)) (sanctions : List (String × GenLogs.Sanction))
      (alerted : List String) (ip : String) (evs : List GenLogs.Event),
      (ip, evs) ∈ groups → 3 ≤ evs.length →
      31 ≤ (GenLogs.calculate_threat_score_ip pexp now events ip).1 →
      ("IP:" ++ ip) ∈ dictKeys
        (GenLogs.detect_loop pexp now events groups alerts scores sanctions alerted).2.1
    ∧ ("IP:" ++ ip) ∈ dictKeys
        (GenLogs.detect_loop pexp now events groups alerts scores sanctions alerted).2.2 := by
  intro groups
  induction groups with
  | nil =>
    intro alerts scores sanctions alerted ip evs hmem
    simp at hmem
  | cons g rest ih =>
    obtain ⟨gip, gevs⟩ := g
    intro alerts scores sanctions alerted ip evs hmem hlen hsc31
    rcases List.mem_cons.mp hmem with heq | hmem'
    · obtain ⟨rfl, rfl⟩ := Prod.mk.injEq .. ▸ heq
      simp only [GenLogs.detect_loop]
      rw [if_neg (by omega : ¬ evs.length < 3), if_pos hsc31]
      obtain ⟨cfg, hcfg⟩ := severity_config_exists hsc31
      have hsc : ("IP:" ++ ip) ∈ dictKeys (dictSet scores ("IP:" ++ ip)
          (GenLogs.mkScoreRec pexp now events ip)) := mem_dictKeys_dictSet_self _ _ _
      have hsa : ("IP:" ++ ip) ∈ dictKeys (GenLogs.apply_sanction now sanctions "IP" ip
          (GenLogs.calculate_threat_score_ip pexp now events ip).1
          (GenLogs.get_severity_level (GenLogs.calculate_threat_score_ip pexp now events ip).1)
          (GenLogs.calculate_threat_score_ip pexp now events ip).2.1
          (GenLogs.calculate_threat_score_ip pexp now events ip).2.2.1) :=
        apply_sanction_key_self _ _ _ _ _ _ _ _ cfg hcfg
      by_cases hal : ip ∈ alerted
      · rw [if_pos hal]
        exact ⟨(detect_loop_keys_mono pexp now events rest _ _ _ _ _).1 hsc,
          (detect_loop_keys_mono pexp now events rest _ _ _ _ _).2 hsa⟩
      · rw [if_neg hal]
        exact ⟨(detect_loop_keys_mono pexp now events rest _ _ _ _ _).1 hsc,
          (detect_loop_keys_mono pexp now events rest _ _ _ _ _).2 hsa⟩
    · simp only [GenLogs.detect_loop]
      by_cases h3 : gevs.length < 3
      · rw [if_pos h3]
        exact ih _ _ _ _ ip evs hmem' hlen hsc31
      · rw [if_neg h3]
        by_cases hsc : 31 ≤ (GenLogs.calculate_threat_score_ip pexp now events gip).1
        · rw [if_pos hsc]
          by_cases hal : gip ∈ alerted
          · rw [if_pos hal]
            exact ih _ _ _ _ ip evs hmem' hlen hsc31
          · rw [if_neg hal]
            exact ih _ _ _ _ ip evs hmem' hlen hsc31
        · rw [if_neg hsc]
          exact ih _ _ _ _ ip evs hmem' hlen hsc31

lemma detect_loop_alerts_append (pexp : Rat → Rat) (now : Rat) (events : List GenLogs.Event) :
    ∀ (groups : List (String × List GenLogs.Event)) (alerts : List GenLogs.Alert)
      (scores : List (String × GenLogs.ScoreRec)) (sanctions : List (String × GenLogs.Sanction))
      (alerted : List String),
      ∃ new, (GenLogs.detect_loop pexp now events groups alerts scores sanctions alerted).1
        = alerts ++ new := by
  intro groups
  induction groups with
  | nil =>
    intro alerts scores sanctions alerted
    exact ⟨[], (List.append_nil _).symm⟩
  | cons g rest ih =>
    obtain ⟨gip, gevs⟩ := g
    intro alerts scores sanctions alerted
    simp only [GenLogs.detect_loop]
    by_cases h3 : gevs.length < 3
    · rw [if_pos h3]
      exact ih _ _ _ _
    · rw [if_neg h3]
      by_cases hsc : 31 ≤ (GenLogs.calculate_threat_score_ip pexp now events gip).1
      · rw [if_pos hsc]
        by_cases hal : gip ∈ alerted
        · rw [if_pos hal]
          exact ih _ _ _ _
        · rw [if_neg hal]
          obtain ⟨new, hnew⟩ := ih (alerts ++ [GenLogs.mkAlert pexp now events gip gevs]) _ _ _
          exact ⟨GenLogs.mkAlert pexp now events gip gevs :: new,
            by rw [hnew, List.append_assoc]; rfl⟩
      · rw [if_neg hsc]
        exact ih _ _ _ _

lemma detect_loop_countP (pexp : Rat → Rat) (now : Rat) (events : List GenLogs.Event)
    (ip : String) :
    ∀ (groups : List (String × List GenLogs.Event)) (alerts : List GenLogs.Alert)
      (scores : List (String × GenLogs.ScoreRec)) (sanctions : List (String × GenLogs.Sanction))
      (alerted : List String),
      (∀ ip0 : String, 1 ≤ alerts.countP (isTD ip0) → ip0 ∈ alerted) →
      ((GenLogs.detect_loop pexp now events groups alerts scores sanctions alerted).1.countP (isTD ip)
          ≤ max 1 (alerts.countP (isTD ip)))
    ∧ (ip ∈ alerted →
        (GenLogs.detect_loop pexp now events groups alerts scores sanctions alerted).1.countP (isTD ip)
          = alerts.countP (isTD ip)) := by
  intro groups
  induction groups with
  | nil =>
    intro alerts scores sanctions alerted hinv
    exact ⟨le_max_right _ _, fun _ => rfl⟩
  | cons g rest ih =>
    obtain ⟨gip, gevs⟩ := g
    intro alerts scores sanctions alerted hinv
    simp only [GenLogs.detect_loop]
    by_cases h3 : gevs.length < 3
    · rw [if_pos h3]
      exact ih _ _ _ _ hinv
    · rw [if_neg h3]
      by_cases hsc : 31 ≤ (GenLogs.calculate_threat_score_ip pexp now events gip).1
      · rw [if_pos hsc]
        by_cases hal : gip ∈ alerted
        · rw [if_pos hal]
          exact ih _ _ _ _ hinv
        · rw [if_neg hal]
          have hcount_na : ∀ ip0 : String, ip0 ≠ gip →
              [GenLogs.mkAlert pexp now events gip gevs].countP (isTD ip0) = 0 := by
            intro ip0 hne
            simp [List.countP_cons, isTD_mkAlert]
            exact fun hh => hne hh.symm
          have hcount_self :
              [GenLogs.mkAlert pexp now events gip gevs].countP (isTD gip) = 1 := by
            simp [List.countP_cons, isTD_mkAlert]
          have hinv' : ∀ ip0 : String,
              1 ≤ (alerts ++ [GenLogs.mkAlert pexp now events gip gevs]).countP (isTD ip0) →
              ip0 ∈ setInsert alerted gip := by
            intro ip0 hc
            rw [List.countP_append] at hc
            by_cases hone : ip0 = gip
            · subst hone
              exact mem_setInsert_self _ _
            · rw [hcount_na ip0 hone] at hc
              exact mem_setInsert_of_mem _ (hinv ip0 (by omega))
          obtain ⟨ihb, ihe⟩ := ih (alerts ++ [GenLogs.mkAlert pexp now events gip gevs])
            (dictSet scores ("IP:" ++ gip) (GenLogs.mkScoreRec pexp now events gip))
            (GenLogs.apply_sanction now sanctions "IP" gip
              (GenLogs.calculate_threat_score_ip pexp now events gip).1
              (GenLogs.get_severity_level (GenLogs.calculate_threat_score_ip pexp now events gip).1)
              (GenLogs.calculate_threat_score_ip pexp now events gip).2.1
              (GenLogs.calculate_threat_score_ip pexp now events gip).2.2.1)
            (setInsert alerted gip) hinv'
          constructor
          · by_cases hip : ip = gip
            · subst hip
              have h0 : alerts.countP (isTD ip) = 0 := by
                by_contra h0
                exact hal (hinv ip (by omega))
              have h1 : (alerts ++ [GenLogs.mkAlert pexp now events ip gevs]).countP (isTD ip) = 1 := by
                rw [List.countP_append, h0, hcount_self]
              refine le_trans ihb ?_
              rw [h1, h0]
              simp
            · have heq : (alerts ++ [GenLogs.mkAlert pexp now events gip gevs]).countP (isTD ip)
                  = alerts.countP (isTD ip) := by
                rw [List.countP_append, hcount_na ip hip]
                omega
              rw [heq] at ihb
              exact ihb
          · intro hmem
            have hip : ip ≠ gip := by
              intro hh
              exact hal (hh ▸ hmem)
            have heq : (alerts ++ [GenLogs.mkAlert pexp now events gip gevs]).countP (isTD ip)
                = alerts.countP (isTD ip) := by
              rw [List.countP_append, hcount_na ip hip]
              omega
            rw [heq] at ihe
            exact ihe (mem_setInsert_of_mem _ hmem)
      · rw [if_neg hsc]
        exact ih _ _ _ _ hinv

/-- C7: the detection cycle only appends alerts; for every IP it appends
at most one "Threat Detection" alert (the final count is at most
`max 1 (initial count)`), an IP already carrying such an alert receives no
second one (its count is unchanged), and an already-alerted qualifying IP
still gets its ThreatScore and Sanction entries written. -/
theorem C7_alert_dedup (pexp : Rat → Rat) (now : Rat) (events : List GenLogs.Event)
    (alerts0 : List GenLogs.Alert) (scores0 : List (String × GenLogs.ScoreRec))
    (sanctions0 : List (String × GenLogs.Sanction)) (ip : String) :
    (∃ new, (GenLogs.detect_threats_by_ip pexp now events alerts0 scores0 sanctions0).1
        = alerts0 ++ new)
  ∧ ((GenLogs.detect_threats_by_ip pexp now events alerts0 scores0 sanctions0).1.countP (isTD ip)
        ≤ max 1 (alerts0.countP (isTD ip)))
  ∧ (1 ≤ alerts0.countP (isTD ip) →
      (GenLogs.detect_threats_by_ip pexp now events alerts0 scores0 sanctions0).1.countP (isTD ip)
        = alerts0.countP (isTD ip))
  ∧ (∀ evs, (ip, evs) ∈ GenLogs.groups_of events → 3 ≤ evs.length →
      31 ≤ (GenLogs.calculate_threat_score_ip pexp now events ip).1 →
        ("IP:" ++ ip) ∈ dictKeys
          (GenLogs.detect_threats_by_ip pexp now events alerts0 scores0 sanctions0).2.1
      ∧ ("IP:" ++ ip) ∈ dictKeys
          (GenLogs.detect_threats_by_ip pexp now events alerts0 scores0 sanctions0).2.2) := by
  have hinv0 : ∀ ip0 : String, 1 ≤ alerts0.countP (isTD ip0) →
      ip0 ∈ (alerts0.filter (fun a => a.type_ == "Threat Detection")).map (fun a => a.ip) := by
    intro ip0 hc
    obtain ⟨a, ha, hpa⟩ := List.countP_pos.mp (show 0 < alerts0.countP (isTD ip0) by omega)
    have hpa' : a.type_ = "Threat Detection" ∧ a.ip = ip0 := by
      simpa [isTD] using hpa
    exact List.mem_map.mpr ⟨a, List.mem_filter.mpr ⟨ha, by simp [hpa'.1]⟩, hpa'.2⟩
  unfold GenLogs.detect_threats_by_ip
  refine ⟨detect_loop_alerts_append pexp now events _ _ _ _ _,
    (detect_loop_countP pexp now events ip _ _ _ _ _ hinv0).1, ?_, ?_⟩
  · intro hc
    exact (detect_loop_countP pexp now events ip _ _ _ _ _ hinv0).2 (hinv0 ip hc)
  · intro evs hmem hlen hsc
    exact detect_loop_scored pexp now events _ _ _ _ _ ip evs hmem hlen hsc

/-- Witness for C7: with an existing "Threat Detection" alert for the IP
and an empty event store, the alert count for that IP is unchanged. -/
theorem C7_witness :
    (GenLogs.detect_threats_by_ip pexp0 0 [] [tdAlertW] [] []).1.countP (isTD "1.2.3.4")
      = [tdAlertW].countP (isTD "1.2.3.4") :=
  (C7_alert_dedup pexp0 0 [] [tdAlertW] [] [] "1.2.3.4").2.2.1 (by with_unfolding_all decide)
